import Mathlib

/-!
# SampleAsyncIO: client and server socket actors

A shallow embedding of `SRC/SPSocketClient.{h,cpp}` and `SRC/SPSocketServer.{h,cpp}`.

Every member function and every completion handler becomes a pure function from the
object state (and the handler's arguments) to the new state together with the ordered
list of externally visible actions it performed: application callbacks, socket and
timer calls, and asynchronous operations started.  Boost.Asio itself is not part of the
repository; the few library calls the code relies on (timer expiry arithmetic,
`remote_endpoint()` on a closed socket, `std::string::substr/erase`, `std::set`) are
modelled after their documented contracts.  The clock reading
`steady_timer::clock_type::now()` is an explicit argument `now`.
-/

namespace SPSocket

/-! ## Strings, sizes, time -/

/-- A `std::string`, as its sequence of chars. -/
abbrev Str := List Char

/-- A `boost::system::error_code`, as its value; `0` is success, so `!error` is `error = 0`.
Callbacks that receive `error.message()` are recorded with the code itself. -/
abbrev error_code := Nat

/-- The value of `boost::asio::error::bad_descriptor` (EBADF). -/
def bad_descriptor : error_code := 9

/-- The value of `boost::asio::error::not_connected` (ENOTCONN), raised by the throwing
`remote_endpoint()` on an open socket whose connection is gone. -/
def not_connected : error_code := 107

/-- The number of values of `std::size_t`. -/
def SIZE_MOD : Nat := 2 ^ 64

/-- Subtraction on `std::size_t` for operands in range: the difference modulo `2 ^ 64`,
that is `a - b` when `b <= a` and `a + 2 ^ 64 - b` when the subtraction wraps. -/
def size_sub (a b : Nat) : Nat := if b ≤ a then a - b else a + SIZE_MOD - b

/-- The call `s.substr(pos, len)` for `pos <= s.size()`: at most `len` chars from `pos`. -/
def substr (s : Str) (pos len : Nat) : Str := (s.drop pos).take len

/-- The call `s.erase(pos, len)` for `pos <= s.size()`: drops at most `len` chars from `pos`. -/
def erase (s : Str) (pos len : Nat) : Str := s.take pos ++ s.drop (pos + len)

/-- A `steady_timer::time_point`, as its tick count (nanoseconds, 64-bit signed). -/
abbrev time_point := Int

/-- The value `steady_timer::time_point::max()`. -/
def time_point_max : time_point := 2 ^ 63 - 1

/-- The value `steady_timer::time_point::min()`. -/
def time_point_min : time_point := -(2 ^ 63)

/-- The duration `std::chrono::seconds(n)` in ticks. -/
def seconds (n : Int) : Int := n * 1000000000

/-- The expiry set by `timer.expires_after(d)` when the clock reads `now`: Asio adds the
duration to the clock reading, saturating at the ends of the time range. -/
def expires_after (now : time_point) (d : Int) : time_point :=
  if 0 ≤ now then
    if time_point_max - now < d then time_point_max else now + d
  else
    if -(now - time_point_min) > d then time_point_min else now + d

/-! ## Client (`SPSocketClient`) -/

/-- The enum `ConnectionStatus`. -/
inductive ConnectionStatus where
  | S_NOT_CONNECTED
  | S_CONNECTING
  | S_CONNECTED
  | S_CLOSING
  | S_CLOSED
  | S_CONNECT_ERROR
  | S_CONNECT_TIMED_OUT
  deriving DecidableEq, Repr

/-- A resolved endpoint, identified by a number. -/
abbrev endpoint_type := Nat

/-- What a client member function does to the outside, in program order: the virtual
callbacks it invokes, the socket and timer calls, and the asynchronous operations it starts
(named after the completion handler bound to them). -/
inductive ClientAction where
  | OnConnecting (ep : endpoint_type)
  | OnConnected (ep : endpoint_type)
  | OnConnectTimedOut (ep : endpoint_type)
  | OnConnectionError (e : error_code)
  | OnHeartBeatError (e : error_code)
  | OnReceiveTimeOut (e : error_code)
  | OnReceiveError (e : error_code)
  | OnReceive (msg : Str)
  | OnSendError (e : error_code)
  | OnDisconnected
  | socket_close
  | deadline_cancel
  | heartbeat_timer_cancel
  | async_connect (ep : endpoint_type)
  | async_read
  | async_read_until (terminator : Char)
  | async_write_send (content : Str)
  | async_write_heartbeat (content : Str)
  | deadline_async_wait
  | heartbeat_timer_async_wait
  deriving DecidableEq, Repr

/-- The data members of `SPSocketClient`.  `socket_open` is `socket_.is_open()`,
`deadline_` and `heartbeat_timer_` are the expiries of the two timers. -/
structure SPSocketClient where
  status : ConnectionStatus
  running_ : Bool
  use_read_until : Bool
  use_recv_polling : Bool
  read_terminator : Char
  read_timeout : Int
  hb_interval : Int
  heartbeat_str_ : Str
  input_buffer_ : Str
  recv_queue_ : List Str
  endpoints_ : List endpoint_type
  socket_open : Bool
  deadline_ : time_point
  heartbeat_timer_ : time_point
  recv_buffer_ : Str
  deriving DecidableEq, Repr

namespace SPSocketClient

/-- `IsConnected()`. -/
def IsConnected (c : SPSocketClient) : Bool :=
  decide (c.status = ConnectionStatus.S_CONNECTED)

/-- `Disconnect()`. -/
def Disconnect (c : SPSocketClient) : SPSocketClient × List ClientAction :=
  if c.running_ = true then
    ({ c with status := ConnectionStatus.S_CLOSED, socket_open := false, running_ := false },
      [ClientAction.socket_close, ClientAction.deadline_cancel,
       ClientAction.heartbeat_timer_cancel, ClientAction.OnDisconnected])
  else
    (c, [])

/-- `start_read_until()`. -/
def start_read_until (c : SPSocketClient) (now : time_point) :
    SPSocketClient × List ClientAction :=
  if c.IsConnected = false then
    (c, [])
  else
    let c1 := if c.read_timeout > 0 then
        { c with deadline_ := expires_after now (seconds c.read_timeout) }
      else c
    (c1, [ClientAction.async_read_until c.read_terminator])

/-- `push(data)`. -/
def push (c : SPSocketClient) (data : Str) : SPSocketClient :=
  { c with recv_queue_ := c.recv_queue_ ++ [data] }

/-- `pop()`. -/
def pop (c : SPSocketClient) : SPSocketClient × List ClientAction :=
  match c.recv_queue_ with
  | [] => (c, [])
  | data :: rest => ({ c with recv_queue_ := rest }, [ClientAction.OnReceive data])

/-- `Poll()`. -/
def Poll (c : SPSocketClient) : SPSocketClient × List ClientAction := c.pop

/-- `handle_read_until(error, n)`, the completion handler of the delimiter-mode read. -/
def handle_read_until (c : SPSocketClient) (error : error_code) (n : Nat)
    (now : time_point) : SPSocketClient × List ClientAction :=
  if error = 0 then
    let str_recv := substr c.input_buffer_ 0 (size_sub n 1)
    let c1 := { c with input_buffer_ := erase c.input_buffer_ 0 n }
    let r1 : SPSocketClient × List ClientAction :=
      if str_recv ≠ [] then
        if c1.use_recv_polling = true then (c1.push str_recv, [])
        else (c1, [ClientAction.OnReceive str_recv])
      else (c1, [])
    let r2 := r1.1.start_read_until now
    (r2.1, r1.2 ++ r2.2)
  else
    let r := c.Disconnect
    (r.1, ClientAction.OnReceiveError error :: r.2)

/-- `send(content)`. -/
def send (c : SPSocketClient) (content : Str) : SPSocketClient × List ClientAction :=
  if c.IsConnected = false then (c, [])
  else (c, [ClientAction.async_write_send content])

/-- `Send(content)`; the overloads taking a buffer build the string and call this one. -/
def Send (c : SPSocketClient) (content : Str) : SPSocketClient × List ClientAction :=
  c.send content

/-- `check_deadline(error)`, the completion handler of the wait on `deadline_`. -/
def check_deadline (c : SPSocketClient) (error : error_code) (now : time_point) :
    SPSocketClient × List ClientAction :=
  let r : SPSocketClient × List ClientAction :=
    if c.deadline_ ≤ now then
      let r1 : SPSocketClient × List ClientAction :=
        if error ≠ 0 then
          ({ c with socket_open := false },
            [ClientAction.OnReceiveTimeOut error, ClientAction.socket_close])
        else (c, [])
      ({ r1.1 with deadline_ := time_point_max }, r1.2)
    else (c, [])
  (r.1, r.2 ++ [ClientAction.deadline_async_wait])

/-- Calls `Poll()` `k` times in a row, collecting the actions. -/
def poll_times : Nat → SPSocketClient → SPSocketClient × List ClientAction
  | 0, c => (c, [])
  | k + 1, c =>
    let r1 := c.Poll
    let r2 := poll_times k r1.1
    (r2.1, r1.2 ++ r2.2)

end SPSocketClient

/-- The messages handed to `OnReceive` in a list of client actions, in order. -/
def client_received : List ClientAction → List Str
  | [] => []
  | ClientAction.OnReceive msg :: rest => msg :: client_received rest
  | _ :: rest => client_received rest

/-- A client in delimiter mode, connected and running, with the given receive mode,
read timeout and input buffer. -/
def sample_client (polling : Bool) (timeout : Int) (buf : Str) : SPSocketClient :=
  { status := ConnectionStatus.S_CONNECTED, running_ := true, use_read_until := true,
    use_recv_polling := polling, read_terminator := '\n', read_timeout := timeout,
    hb_interval := 30, heartbeat_str_ := [], input_buffer_ := buf, recv_queue_ := [],
    endpoints_ := [0], socket_open := true, deadline_ := time_point_max,
    heartbeat_timer_ := 0, recv_buffer_ := [] }

/-! ## Channel -/

/-- A `subscriber_ptr`, identified by the address it holds. -/
abbrev subscriber_ptr := Nat

/-- `std::set<subscriber_ptr>::insert`: nothing happens when the key is already present,
otherwise the key is placed at its position in the order. -/
def set_insert (x : subscriber_ptr) (l : List subscriber_ptr) : List subscriber_ptr :=
  if x ∈ l then l else List.orderedInsert (· ≤ ·) x l

/-- `std::set<subscriber_ptr>::erase(key)`: removes the key when present. -/
def set_erase (x : subscriber_ptr) (l : List subscriber_ptr) : List subscriber_ptr :=
  l.filter (fun y => decide (y ≠ x))

/-- The class `Channel`; `subscribers_` lists the set in iteration order. -/
structure Channel where
  subscribers_ : List subscriber_ptr
  deriving DecidableEq, Repr

namespace Channel

/-- A default-constructed channel. -/
def empty : Channel := { subscribers_ := [] }

/-- `Join(subscriber)`. -/
def Join (ch : Channel) (subscriber : subscriber_ptr) : Channel :=
  { subscribers_ := set_insert subscriber ch.subscribers_ }

/-- `Leave(subscriber)`. -/
def Leave (ch : Channel) (subscriber : subscriber_ptr) : Channel :=
  { subscribers_ := set_erase subscriber ch.subscribers_ }

/-- `Deliver(msg)`: the calls `s->deliver(msg)` it makes, in order. -/
def Deliver (ch : Channel) (msg : Str) : List (subscriber_ptr × Str) :=
  ch.subscribers_.map (fun s => (s, msg))

end Channel

/-- A membership operation on a channel. -/
inductive ChannelOp where
  | Join (subscriber : subscriber_ptr)
  | Leave (subscriber : subscriber_ptr)
  deriving DecidableEq, Repr

/-- Applies one membership operation. -/
def Channel.apply (ch : Channel) : ChannelOp → Channel
  | ChannelOp.Join s => ch.Join s
  | ChannelOp.Leave s => ch.Leave s

/-- Applies a sequence of membership operations, first to last. -/
def Channel.run (ch : Channel) : List ChannelOp → Channel
  | [] => ch
  | op :: rest => (ch.apply op).run rest

/-- What an operation says about subscriber `s`: `some true` for its `Join`, `some false`
for its `Leave`, `none` when the operation concerns another subscriber. -/
def ChannelOp.concerns (s : subscriber_ptr) : ChannelOp → Option Bool
  | ChannelOp.Join x => if x = s then some true else none
  | ChannelOp.Leave x => if x = s then some false else none

/-- Whether the most recent operation on subscriber `s` in `ops` was a `Join`; `none`
when no operation of `ops` concerns `s`. -/
def most_recent_join (s : subscriber_ptr) : List ChannelOp → Option Bool
  | [] => none
  | op :: rest =>
    match most_recent_join s rest with
    | some b => some b
    | none => op.concerns s

/-! ## Server session (`TCP_Session`) -/

/-- The timer passed to `check_deadline(steady_timer& deadline)`. -/
inductive Deadline where
  | input
  | output
  deriving DecidableEq, Repr

/-- What a session member function does to the outside, in program order. -/
inductive ServerAction where
  | OnClientConnected (host : Str) (port : Nat)
  | OnClientDisconnected (host : Str) (port : Nat)
  | OnReceiveError (e : error_code)
  | OnReceive (msg : Str)
  | socket_close
  | deadline_cancel (d : Deadline)
  | non_empty_output_queue_cancel
  | async_read_until (terminator : Char)
  | async_write (msg : Str)
  | non_empty_output_queue_async_wait
  | deadline_async_wait (d : Deadline)
  deriving DecidableEq, Repr

/-- The data members of `TCP_Session`.  `self` is the pointer of `shared_from_this()`,
`channel_` the content of the referenced channel, `socket_open` is `socket_.is_open()`,
`peer_connected` is the state of the connection behind the socket: whether the operating
system still knows the peer, which is what `socket_.remote_endpoint()` needs besides an
open socket (it is lost when the peer resets the connection and on a broken pipe, not on
an orderly end of stream), `remote_host`/`remote_port` what `socket_.remote_endpoint()`
reports when it succeeds, the three timers are given by their expiries.
`hb_out_of_bounds` is not a member: it stands for the bytes an out-of-bounds read past
the literal `"HB"` finds (see `heartbeat_reply`). -/
structure TCP_Session where
  read_terminator : Char
  rw_timeout : Int
  self : subscriber_ptr
  channel_ : Channel
  socket_open : Bool
  peer_connected : Bool
  remote_host : Str
  remote_port : Nat
  input_buffer_ : Str
  input_deadline_ : time_point
  output_queue_ : List Str
  non_empty_output_queue_ : time_point
  output_deadline_ : time_point
  hb_out_of_bounds : Str
  deriving DecidableEq, Repr

/-- The result of a session member function: the new state, the actions performed, and the
`boost::system::system_error` that escaped it, if any. -/
structure Outcome where
  session : TCP_Session
  actions : List ServerAction
  thrown : Option error_code
  deriving DecidableEq, Repr

namespace TCP_Session

/-- The constructor: the socket is the accepted one, open and connected, the three timers
are set to `time_point::max()`, the other members take their default initialisers. -/
def create (self : subscriber_ptr) (ch : Channel) (host : Str) (port : Nat)
    (oob : Str) : TCP_Session :=
  { read_terminator := '\n', rw_timeout := 0, self := self, channel_ := ch,
    socket_open := true, peer_connected := true, remote_host := host, remote_port := port,
    input_buffer_ := [],
    input_deadline_ := time_point_max, output_queue_ := [],
    non_empty_output_queue_ := time_point_max, output_deadline_ := time_point_max,
    hb_out_of_bounds := oob }

/-- `UseReadUntil(terminator)`. -/
def UseReadUntil (s : TCP_Session) (terminator : Char) : TCP_Session :=
  { s with read_terminator := terminator }

/-- `UseReadWriteTimeOut(rw_timeout_sec)`. -/
def UseReadWriteTimeOut (s : TCP_Session) (rw_timeout_sec : Int) : TCP_Session :=
  { s with rw_timeout := rw_timeout_sec }

/-- `stopped()`. -/
def stopped (s : TCP_Session) : Bool := !s.socket_open

/-- The expiry of the timer `d`. -/
def expiry (s : TCP_Session) : Deadline → time_point
  | Deadline.input => s.input_deadline_
  | Deadline.output => s.output_deadline_

/-- `stop()`.  `socket_.remote_endpoint()` is the throwing overload: on a closed socket
it raises `system_error(bad_descriptor)`, on an open socket that is no longer connected
`system_error(not_connected)`; either way after `Leave` and before the notification, the
`close` and the three `cancel` calls, which are then not executed. -/
def stop (s : TCP_Session) : Outcome :=
  let s1 := { s with channel_ := s.channel_.Leave s.self }
  if s1.socket_open = true then
    if s1.peer_connected = true then
      { session := { s1 with socket_open := false },
        actions := [ServerAction.OnClientDisconnected s1.remote_host s1.remote_port,
          ServerAction.socket_close, ServerAction.deadline_cancel Deadline.input,
          ServerAction.non_empty_output_queue_cancel,
          ServerAction.deadline_cancel Deadline.output],
        thrown := none }
    else
      { session := s1, actions := [], thrown := some not_connected }
  else
    { session := s1, actions := [], thrown := some bad_descriptor }

/-- `deliver(msg)`. -/
def deliver (s : TCP_Session) (msg : Str) : TCP_Session :=
  { s with output_queue_ := s.output_queue_ ++ [msg],
           non_empty_output_queue_ := time_point_min }

/-- `Send(msg)`. -/
def Send (s : TCP_Session) (msg : Str) : TCP_Session := s.deliver msg

/-- The string pushed by `output_queue_.push_back("HB" + read_terminator)`.  The operands
are the array `"HB"` (chars `H`, `B`, NUL) and a `char`, so `+` advances a pointer into the
literal by the terminator's value and the string is read from there up to the next NUL:
inside the literal for the values 0, 1 and 2, outside the array for every other value. -/
def heartbeat_reply (s : TCP_Session) : Str :=
  match s.read_terminator.toNat with
  | 0 => ['H', 'B']
  | 1 => ['B']
  | 2 => []
  | _ => s.hb_out_of_bounds

/-- `read_line()`: arms the input deadline and starts the read. -/
def read_line (s : TCP_Session) (now : time_point) : Outcome :=
  let s1 := if s.rw_timeout > 0 then
      { s with input_deadline_ := expires_after now (seconds s.rw_timeout) }
    else s
  { session := s1, actions := [ServerAction.async_read_until s.read_terminator],
    thrown := none }

/-- The completion handler of the read started by `read_line()`. -/
def read_line_handler (s : TCP_Session) (error : error_code) (n : Nat)
    (now : time_point) : Outcome :=
  if s.stopped = true then
    { session := s, actions := [], thrown := none }
  else if error = 0 then
    let str_recv := substr s.input_buffer_ 0 (size_sub n 1)
    let s1 := { s with input_buffer_ := erase s.input_buffer_ 0 n }
    if str_recv ≠ [] then
      let r := s1.read_line now
      { r with actions := ServerAction.OnReceive str_recv :: r.actions }
    else
      let s2 := if s1.output_queue_ = [] then
          { s1 with output_queue_ := s1.output_queue_ ++ [s1.heartbeat_reply],
                    non_empty_output_queue_ := time_point_min }
        else s1
      s2.read_line now
  else
    let r := s.stop
    { r with actions := ServerAction.OnReceiveError error :: r.actions }

/-- `await_output()`. -/
def await_output (s : TCP_Session) : Outcome :=
  { session := s, actions := [ServerAction.non_empty_output_queue_async_wait],
    thrown := none }

/-- `write_line()`: arms the output deadline and starts the write of
`output_queue_.front()`.  It is only called with a non-empty queue. -/
def write_line (s : TCP_Session) (now : time_point) : Outcome :=
  let s1 := if s.rw_timeout > 0 then
      { s with output_deadline_ := expires_after now (seconds s.rw_timeout) }
    else s
  { session := s1,
    actions := match s.output_queue_ with
      | [] => []
      | front :: _ => [ServerAction.async_write front],
    thrown := none }

/-- The completion handler of the wait started by `await_output()`; the error code of
the wait is ignored by the handler. -/
def await_output_handler (s : TCP_Session) (_error : error_code)
    (now : time_point) : Outcome :=
  if s.stopped = true then
    { session := s, actions := [], thrown := none }
  else if s.output_queue_ = [] then
    ({ s with non_empty_output_queue_ := time_point_max }).await_output
  else
    s.write_line now

/-- The completion handler of the write started by `write_line()`; `pop_front()` drops
the first element. -/
def write_line_handler (s : TCP_Session) (error : error_code) : Outcome :=
  if s.stopped = true then
    { session := s, actions := [], thrown := none }
  else if error = 0 then
    ({ s with output_queue_ := s.output_queue_.tail }).await_output
  else
    s.stop

/-- `check_deadline(deadline)`: starts the wait on the timer. -/
def check_deadline (s : TCP_Session) (d : Deadline) : Outcome :=
  { session := s, actions := [ServerAction.deadline_async_wait d], thrown := none }

/-- The completion handler of the wait started by `check_deadline(deadline)`; the error
code of the wait is ignored by the handler. -/
def check_deadline_handler (s : TCP_Session) (d : Deadline) (_error : error_code)
    (now : time_point) : Outcome :=
  if s.stopped = true then
    { session := s, actions := [], thrown := none }
  else if s.expiry d ≤ now then
    s.stop
  else
    s.check_deadline d

/-- `Start()`.  As in `stop()`, `remote_endpoint()` raises on a closed socket and on an
open one that is no longer connected, here after `Join`. -/
def Start (s : TCP_Session) (now : time_point) : Outcome :=
  let s1 := { s with channel_ := s.channel_.Join s.self }
  if s1.socket_open = true then
    if s1.peer_connected = true then
      let r := s1.read_line now
      { session := r.session,
        actions := ServerAction.OnClientConnected s1.remote_host s1.remote_port ::
          (r.actions ++ [ServerAction.deadline_async_wait Deadline.input,
            ServerAction.non_empty_output_queue_async_wait,
            ServerAction.deadline_async_wait Deadline.output]),
        thrown := none }
    else
      { session := s1, actions := [], thrown := some not_connected }
  else
    { session := s1, actions := [], thrown := some bad_descriptor }

end TCP_Session

/-- The messages handed to `OnReceive` in a list of session actions, in order. -/
def server_received : List ServerAction → List Str
  | [] => []
  | ServerAction.OnReceive msg :: rest => msg :: server_received rest
  | _ :: rest => server_received rest

/-- The number of `OnClientDisconnected` notifications in a list of session actions. -/
def disconnect_notifications : List ServerAction → Nat
  | [] => 0
  | ServerAction.OnClientDisconnected _ _ :: rest => disconnect_notifications rest + 1
  | _ :: rest => disconnect_notifications rest

/-- A session as the server creates it for peer `10.0.0.7:5000`, member of its channel,
with the given timeout, input buffer and socket state. -/
def sample_session (timeout : Int) (buf : Str) (is_open : Bool) : TCP_Session :=
  { TCP_Session.create 7 { subscribers_ := [3, 7] } "10.0.0.7".toList 5000 [] with
    rw_timeout := timeout, input_buffer_ := buf, socket_open := is_open }

/-! ## A session with its pending operations

The completion handlers above are run by the reactor.  `SessionRun` pairs a session with
the output operations that are pending on it and with two logs used to state ordering
properties: every message pushed to `output_queue_`, and every message whose write
completed successfully. -/

/-- Who pushed a message to the output queue: `Send`/`deliver`, or the heartbeat reply of
the read handler. -/
inductive Origin where
  | send
  | heartbeat
  deriving DecidableEq, Repr

/-- The buffer of the first `async_write` started in a list of actions. -/
def started_write : List ServerAction → Option Str
  | [] => none
  | ServerAction.async_write msg :: _ => some msg
  | _ :: rest => started_write rest

/-- Whether a list of actions starts a wait on `non_empty_output_queue_`. -/
def started_output_wait : List ServerAction → Bool
  | [] => false
  | ServerAction.non_empty_output_queue_async_wait :: _ => true
  | _ :: rest => started_output_wait rest

/-- A session together with its pending output operations and the two logs: `enqueued`,
every message pushed to `output_queue_` with its origin, and `transmitted`, every message
whose write completed successfully. -/
structure SessionRun where
  session : TCP_Session
  output_wait_pending : Bool
  write_pending : Option Str
  enqueued : List (Origin × Str)
  transmitted : List Str
  deriving DecidableEq, Repr

/-- What can happen to a running session on the output side: a `Send` call, a read that
completes successfully (after `data` arrived in the input buffer, reporting `n` bytes up
to the terminator; `n = 1` is a heartbeat), the wake of the output actor, the completion
of the write in flight, and the loss of the connection (the peer resets it), after which
`remote_endpoint()` fails. -/
inductive SessionEvent where
  | Send (msg : Str)
  | read_completed (data : Str) (n : Nat) (now : time_point)
  | output_wake (error : error_code) (now : time_point)
  | write_completed (error : error_code)
  | connection_lost
  deriving DecidableEq, Repr

namespace SessionRun

/-- The session the acceptor creates and starts in `SPSocketServer::accept`. -/
def accepted (self : subscriber_ptr) (ch : Channel) (host : Str) (port : Nat) (oob : Str)
    (terminator : Char) (timeout : Int) (now : time_point) : SessionRun :=
  let r := (((TCP_Session.create self ch host port oob).UseReadUntil
    terminator).UseReadWriteTimeOut timeout).Start now
  { session := r.session, output_wait_pending := started_output_wait r.actions,
    write_pending := started_write r.actions, enqueued := [], transmitted := [] }

/-- Runs the member function or completion handler of one event.  A wake or a write
completion can only occur while the corresponding operation is pending.  The log
`enqueued` records a `Send` payload at the call and, after a read, whatever the read
handler appended to the output queue; `transmitted` records the buffer of the write in
flight when its completion carries no error. -/
def step (w : SessionRun) : SessionEvent → SessionRun
  | SessionEvent.Send msg =>
    { w with session := w.session.Send msg,
             enqueued := w.enqueued ++ [(Origin.send, msg)] }
  | SessionEvent.read_completed data n now =>
    let r := ({ w.session with input_buffer_ := w.session.input_buffer_ ++ data
      }).read_line_handler 0 n now
    { w with session := r.session,
             enqueued := w.enqueued ++
               (r.session.output_queue_.drop w.session.output_queue_.length).map
                 (fun m => (Origin.heartbeat, m)) }
  | SessionEvent.output_wake error now =>
    if w.output_wait_pending = true then
      let r := w.session.await_output_handler error now
      { w with session := r.session,
               output_wait_pending := started_output_wait r.actions,
               write_pending := match started_write r.actions with
                 | some m => some m
                 | none => w.write_pending }
    else w
  | SessionEvent.write_completed error =>
    match w.write_pending with
    | none => w
    | some m =>
      let r := w.session.write_line_handler error
      { w with session := r.session,
               output_wait_pending := started_output_wait r.actions,
               write_pending := started_write r.actions,
               transmitted := if error = 0 then w.transmitted ++ [m] else w.transmitted }
  | SessionEvent.connection_lost =>
    { w with session := { w.session with peer_connected := false } }

/-- Runs a sequence of events, first to last. -/
def run (w : SessionRun) : List SessionEvent → SessionRun
  | [] => w
  | e :: rest => (w.step e).run rest

end SessionRun

/-- The payloads of the `Send` calls in a sequence of events, in call order. -/
def send_calls : List SessionEvent → List Str
  | [] => []
  | SessionEvent.Send msg :: rest => msg :: send_calls rest
  | _ :: rest => send_calls rest

/-- The `Send` payloads in a log of queued messages, in order. -/
def send_payloads : List (Origin × Str) → List Str
  | [] => []
  | (Origin.send, msg) :: rest => msg :: send_payloads rest
  | (Origin.heartbeat, _) :: rest => send_payloads rest

/-- What the read handlers surface of a framed message: the message itself unless it is
empty. -/
def surfaced (msg : Str) : List Str := if msg = [] then [] else [msg]

/-- The messages handed to subscriber `s` by a list of `deliver` calls, in order. -/
def delivered_to (s : subscriber_ptr) (calls : List (subscriber_ptr × Str)) : List Str :=
  (calls.filter (fun call => decide (call.1 = s))).map Prod.snd

/-- The output-side invariant of a running session: the transmitted messages followed by
the output queue are the messages queued so far, in order; and while a write is in flight
its buffer is the head of the queue, the output actor is not waiting, and the session is
not stopped. -/
def SessionRun.Consistent (w : SessionRun) : Prop :=
  w.transmitted ++ w.session.output_queue_ = w.enqueued.map Prod.snd ∧
  ∀ m, w.write_pending = some m →
    w.session.output_queue_.head? = some m ∧ w.output_wait_pending = false ∧
    w.session.stopped = false

/-! ## Client: connecting, raw reads, heartbeats -/

namespace SPSocketClient

/-- The constructor: the socket is closed, the status is `S_NOT_CONNECTED`, the other
members take their default initialisers.  The two timers are constructed without an
expiry, which Asio represents by the clock's epoch. -/
def create : SPSocketClient :=
  { status := ConnectionStatus.S_NOT_CONNECTED, running_ := false, use_read_until := false,
    use_recv_polling := false, read_terminator := '\n', read_timeout := 0, hb_interval := 30,
    heartbeat_str_ := [], input_buffer_ := [], recv_queue_ := [], endpoints_ := [],
    socket_open := false, deadline_ := 0, heartbeat_timer_ := 0, recv_buffer_ := [] }

/-- `UseReadUntil(terminator)`. -/
def UseReadUntil (c : SPSocketClient) (terminator : Char) : SPSocketClient :=
  { c with use_read_until := true, read_terminator := terminator }

/-- `UseReadTimeOut(recv_timeout_sec)`. -/
def UseReadTimeOut (c : SPSocketClient) (recv_timeout_sec : Int) : SPSocketClient :=
  { c with read_timeout := recv_timeout_sec }

/-- `UseSendHeartBeat(sec_interval, heartbeat)`. -/
def UseSendHeartBeat (c : SPSocketClient) (sec_interval : Int) (heartbeat : Str) :
    SPSocketClient :=
  { c with hb_interval := sec_interval, heartbeat_str_ := heartbeat }

/-- `UsePollingToReceive(flag)`. -/
def UsePollingToReceive (c : SPSocketClient) (flag : Bool) : SPSocketClient :=
  { c with use_recv_polling := flag }

/-- `start_read()`: arms the deadline, empties the receive buffer and starts the read. -/
def start_read (c : SPSocketClient) (now : time_point) :
    SPSocketClient × List ClientAction :=
  if c.IsConnected = false then
    (c, [])
  else
    let c1 := if c.read_timeout > 0 then
        { c with deadline_ := expires_after now (seconds c.read_timeout) }
      else c
    ({ c1 with recv_buffer_ := [] }, [ClientAction.async_read])

/-- `handle_read(error, n)`, the completion handler of the raw-mode read; `recv_buffer_`
holds the bytes read. -/
def handle_read (c : SPSocketClient) (error : error_code) (n : Nat)
    (now : time_point) : SPSocketClient × List ClientAction :=
  if error = 0 then
    let r1 : SPSocketClient × List ClientAction :=
      if n > 0 then
        let str := c.recv_buffer_
        let str_recv := substr str 0 (size_sub n 1)
        if c.use_recv_polling = true then (c.push str_recv, [])
        else (c, [ClientAction.OnReceive str_recv])
      else (c, [])
    let r2 := r1.1.start_read now
    (r2.1, r1.2 ++ r2.2)
  else
    let r := c.Disconnect
    (r.1, ClientAction.OnReceiveError error :: r.2)

/-- `handle_send(error)`. -/
def handle_send (c : SPSocketClient) (error : error_code) :
    SPSocketClient × List ClientAction :=
  if error ≠ 0 then
    let r := c.Disconnect
    (r.1, ClientAction.OnSendError error :: r.2)
  else (c, [])

/-- `send_heartbeat()`. -/
def send_heartbeat (c : SPSocketClient) : SPSocketClient × List ClientAction :=
  if c.IsConnected = false then (c, [])
  else (c, [ClientAction.async_write_heartbeat c.heartbeat_str_])

/-- `handle_send_heartbeat(error)`. -/
def handle_send_heartbeat (c : SPSocketClient) (error : error_code) (now : time_point) :
    SPSocketClient × List ClientAction :=
  if error = 0 then
    ({ c with heartbeat_timer_ := expires_after now (seconds c.hb_interval) },
      [ClientAction.heartbeat_timer_async_wait])
  else
    let r := c.Disconnect
    (r.1, ClientAction.OnHeartBeatError error :: r.2)

/-- `start_async_reading()`. -/
def start_async_reading (c : SPSocketClient) (now : time_point) :
    SPSocketClient × List ClientAction :=
  if c.IsConnected = false then
    (c, [])
  else if c.running_ = false then
    let c1 := { c with running_ := true }
    let r1 := if c1.use_read_until = true then c1.start_read_until now else c1.start_read now
    let r2 : SPSocketClient × List ClientAction :=
      if r1.1.heartbeat_str_.length > 0 then r1.1.send_heartbeat else (r1.1, [])
    (r2.1, r1.2 ++ r2.2)
  else
    (c, [])

/-- `start_connect(endpoint_iter)`; the iterator is a position in `endpoints_`, the end
iterator being the length.  `async_connect` opens the socket when it starts. -/
def start_connect (c : SPSocketClient) (endpoint_iter : Nat) (now : time_point) :
    SPSocketClient × List ClientAction :=
  match c.endpoints_[endpoint_iter]? with
  | some ep =>
    let c1 := { c with status := ConnectionStatus.S_CONNECTING }
    let c2 := if c.read_timeout > 0 then
        { c1 with deadline_ := expires_after now (seconds c.read_timeout) }
      else c1
    ({ c2 with socket_open := true },
      [ClientAction.OnConnecting ep, ClientAction.async_connect ep])
  | none => c.Disconnect

/-- `handle_connect(error, endpoint_iter)`; `ep` is the endpoint the iterator points to. -/
def handle_connect (c : SPSocketClient) (error : error_code) (ep : endpoint_type)
    (now : time_point) : SPSocketClient × List ClientAction :=
  if c.socket_open = false then
    ({ c with status := ConnectionStatus.S_CONNECT_ERROR },
      [ClientAction.OnConnectTimedOut ep])
  else if error ≠ 0 then
    ({ c with status := ConnectionStatus.S_CONNECT_ERROR, socket_open := false },
      [ClientAction.OnConnectionError error, ClientAction.socket_close])
  else
    let c1 := { c with status := ConnectionStatus.S_CONNECTED }
    let r := c1.start_async_reading now
    (r.1, ClientAction.OnConnected ep :: r.2)

/-- `start(endpoints)`. -/
def start (c : SPSocketClient) (endpoints : List endpoint_type) (now : time_point) :
    SPSocketClient × List ClientAction :=
  let c1 := { c with endpoints_ := endpoints }
  let r := c1.start_connect 0 now
  (r.1, r.2 ++ [ClientAction.deadline_async_wait])

/-- `Connect(host, port)`; `endpoints` is what `resolver_.resolve(host, port)` returns. -/
def Connect (c : SPSocketClient) (endpoints : List endpoint_type) (now : time_point) :
    SPSocketClient × List ClientAction :=
  ({ c with status := ConnectionStatus.S_CLOSED }).start endpoints now

end SPSocketClient

/-- The number of `OnReceiveTimeOut` notifications in a list of client actions. -/
def timeout_notifications : List ClientAction → Nat
  | [] => 0
  | ClientAction.OnReceiveTimeOut _ :: rest => timeout_notifications rest + 1
  | _ :: rest => timeout_notifications rest

/-- The number of `OnReceiveError` notifications in a list of client actions. -/
def client_receive_errors : List ClientAction → Nat
  | [] => 0
  | ClientAction.OnReceiveError _ :: rest => client_receive_errors rest + 1
  | _ :: rest => client_receive_errors rest

/-- The number of reads (raw or delimiter mode) started in a list of client actions. -/
def client_reads_started : List ClientAction → Nat
  | [] => 0
  | ClientAction.async_read :: rest => client_reads_started rest + 1
  | ClientAction.async_read_until _ :: rest => client_reads_started rest + 1
  | _ :: rest => client_reads_started rest

/-- The number of `OnReceiveError` notifications in a list of session actions. -/
def server_receive_errors : List ServerAction → Nat
  | [] => 0
  | ServerAction.OnReceiveError _ :: rest => server_receive_errors rest + 1
  | _ :: rest => server_receive_errors rest

/-- The number of reads started in a list of session actions. -/
def server_reads_started : List ServerAction → Nat
  | [] => 0
  | ServerAction.async_read_until _ :: rest => server_reads_started rest + 1
  | _ :: rest => server_reads_started rest

/-- A connected, running client in raw-read mode whose receive buffer holds `buf`. -/
def sample_raw_client (polling : Bool) (buf : Str) : SPSocketClient :=
  { sample_client polling 0 [] with use_read_until := false, recv_buffer_ := buf }

/-- The sample session configured with terminator `t`. -/
def sample_session_terminator (t : Char) (buf : Str) : TCP_Session :=
  (sample_session 0 buf true).UseReadUntil t

/-! ## Reading a whole stream -/

/-- The byte count a successful `async_read_until` reports for a buffer that holds the
terminator: the length up to and including its first occurrence.  `none` while the buffer
holds no terminator, when the read keeps waiting for data. -/
def read_until_count (t : Char) : Str → Option Nat
  | [] => none
  | a :: rest => if a = t then some 1 else (read_until_count t rest).map (· + 1)

/-- The byte stream of a list of messages: each message followed by the terminator. -/
def wire_stream (t : Char) : List Str → Str
  | [] => []
  | m :: rest => m ++ t :: wire_stream t rest

/-- The non-empty messages of a list, in order. -/
def nonempty_messages : List Str → List Str
  | [] => []
  | m :: rest => surfaced m ++ nonempty_messages rest

/-- The client's input actor on the bytes already in `input_buffer_`: while the buffer
holds the terminator the pending read completes successfully with `read_until_count` and
`handle_read_until` runs; the next completion can only happen when the handler started a
new read.  `fuel` bounds the number of completions, `clock` gives the clock reading of
each one. -/
def SPSocketClient.read_until_loop (clock : Nat → time_point) :
    Nat → SPSocketClient → SPSocketClient × List ClientAction
  | 0, c => (c, [])
  | fuel + 1, c =>
    match read_until_count c.read_terminator c.input_buffer_ with
    | none => (c, [])
    | some n =>
      let r := c.handle_read_until 0 n (clock fuel)
      if 0 < client_reads_started r.2 then
        let r2 := SPSocketClient.read_until_loop clock fuel r.1
        (r2.1, r.2 ++ r2.2)
      else r

/-- The session's input actor on the bytes already in `input_buffer_`, as
`SPSocketClient.read_until_loop`. -/
def TCP_Session.read_line_loop (clock : Nat → time_point) :
    Nat → TCP_Session → TCP_Session × List ServerAction
  | 0, s => (s, [])
  | fuel + 1, s =>
    match read_until_count s.read_terminator s.input_buffer_ with
    | none => (s, [])
    | some n =>
      let r := s.read_line_handler 0 n (clock fuel)
      if 0 < server_reads_started r.actions then
        let r2 := TCP_Session.read_line_loop clock fuel r.session
        (r2.1, r.actions ++ r2.2)
      else (r.session, r.actions)

/-! ## Runs of a session and of a client with their deadline timers -/

/-- Anything that can happen to a started session: a `Send` call, the completion of each
of its asynchronous operations, with the completion code and the clock reading, and the
loss of the connection. -/
inductive SessionOp where
  | Send (msg : Str)
  | read_completed (data : Str) (error : error_code) (n : Nat) (now : time_point)
  | output_wake (error : error_code) (now : time_point)
  | write_completed (error : error_code)
  | deadline_wake (d : Deadline) (error : error_code) (now : time_point)
  | connection_lost
  deriving DecidableEq, Repr

/-- Runs the member function or completion handler of one operation. -/
def TCP_Session.perform (s : TCP_Session) : SessionOp → Outcome
  | SessionOp.Send msg => { session := s.Send msg, actions := [], thrown := none }
  | SessionOp.read_completed data error n now =>
    ({ s with input_buffer_ := s.input_buffer_ ++ data }).read_line_handler error n now
  | SessionOp.output_wake error now => s.await_output_handler error now
  | SessionOp.write_completed error => s.write_line_handler error
  | SessionOp.deadline_wake d error now => s.check_deadline_handler d error now
  | SessionOp.connection_lost =>
    { session := { s with peer_connected := false }, actions := [], thrown := none }

/-- Runs a sequence of operations, first to last, and gives the final session. -/
def TCP_Session.perform_all (s : TCP_Session) : List SessionOp → TCP_Session
  | [] => s
  | op :: rest => (s.perform op).session.perform_all rest

/-- The value of `boost::asio::error::operation_aborted` (ECANCELED), the completion code
of a cancelled wait. -/
def operation_aborted : error_code := 125

/-- The number of waits on `deadline_` started in a list of client actions. -/
def deadline_waits_started : List ClientAction → Nat
  | [] => 0
  | ClientAction.deadline_async_wait :: rest => deadline_waits_started rest + 1
  | _ :: rest => deadline_waits_started rest

/-- Whether a list of client actions contains `deadline_.cancel()`. -/
def deadline_cancelled : List ClientAction → Bool
  | [] => false
  | ClientAction.deadline_cancel :: _ => true
  | _ :: rest => deadline_cancelled rest

/-- Whether a list of client actions starts a connect or a read; with a non-zero read
timeout each of these is preceded by `deadline_.expires_after(...)`. -/
def bounded_operation_started : List ClientAction → Bool
  | [] => false
  | ClientAction.async_connect _ :: _ => true
  | ClientAction.async_read :: _ => true
  | ClientAction.async_read_until _ :: _ => true
  | _ :: rest => bounded_operation_started rest

/-- A client with the waits on its deadline timer: `deadline_waits` counts the pending
waits, `deadline_aborted` the handlers of cancelled waits that are queued with
`operation_aborted`; `trace` collects the actions performed so far. -/
structure ClientRun where
  client : SPSocketClient
  deadline_waits : Nat
  deadline_aborted : Nat
  trace : List ClientAction
  deriving DecidableEq, Repr

/-- Anything that can happen to a client: the public calls and the completion of each
asynchronous operation, with the clock reading at that moment.  A wait on `deadline_`
completes either normally (`deadline_wake`) or, when it was cancelled, with
`operation_aborted` (`deadline_wake_aborted`). -/
inductive ClientEvent where
  | Connect (endpoints : List endpoint_type) (now : time_point)
  | Disconnect (now : time_point)
  | Send (content : Str) (now : time_point)
  | Poll (now : time_point)
  | connect_completed (error : error_code) (ep : endpoint_type) (now : time_point)
  | read_completed (data : Str) (error : error_code) (n : Nat) (now : time_point)
  | read_until_completed (data : Str) (error : error_code) (n : Nat) (now : time_point)
  | send_completed (error : error_code) (now : time_point)
  | heartbeat_sent (error : error_code) (now : time_point)
  | heartbeat_timer_wake (now : time_point)
  | deadline_wake (now : time_point)
  | deadline_wake_aborted (now : time_point)
  deriving DecidableEq, Repr

/-- The clock reading of an event. -/
def ClientEvent.clock : ClientEvent → time_point
  | ClientEvent.Connect _ now => now
  | ClientEvent.Disconnect now => now
  | ClientEvent.Send _ now => now
  | ClientEvent.Poll now => now
  | ClientEvent.connect_completed _ _ now => now
  | ClientEvent.read_completed _ _ _ now => now
  | ClientEvent.read_until_completed _ _ _ now => now
  | ClientEvent.send_completed _ now => now
  | ClientEvent.heartbeat_sent _ now => now
  | ClientEvent.heartbeat_timer_wake now => now
  | ClientEvent.deadline_wake now => now
  | ClientEvent.deadline_wake_aborted now => now

namespace SPSocketClient

/-- A client as the application configures it before `Connect`: constructed, then
`UseReadUntil` (for delimiter mode), `UseReadTimeOut`, `UseSendHeartBeat` (when
heartbeats are wanted) and `UsePollingToReceive`. -/
def configured (delimiter : Option Char) (timeout : Int) (heartbeat : Option (Int × Str))
    (polling : Bool) : SPSocketClient :=
  let c1 := match delimiter with
    | some t => create.UseReadUntil t
    | none => create
  let c2 := c1.UseReadTimeOut timeout
  let c3 := match heartbeat with
    | some hb => c2.UseSendHeartBeat hb.1 hb.2
    | none => c2
  c3.UsePollingToReceive polling

end SPSocketClient

namespace ClientRun

/-- A configured client before any call: no wait is pending. -/
def fresh (c : SPSocketClient) : ClientRun :=
  { client := c, deadline_waits := 0, deadline_aborted := 0, trace := [] }

/-- Books the result `r` of a member function run at clock reading `now`.  Asio's timer
contract: `cancel()` and a change of the expiry complete the pending waits with
`operation_aborted` only when the timer has not yet expired; waits on a timer that has
already expired complete normally.  New waits become pending. -/
def after (w : ClientRun) (now : time_point) (r : SPSocketClient × List ClientAction) :
    ClientRun :=
  let aborts : Bool := decide (now < w.client.deadline_) &&
    (deadline_cancelled r.2 ||
      (decide (w.client.read_timeout > 0) && bounded_operation_started r.2))
  { client := r.1,
    deadline_waits := (if aborts = true then 0 else w.deadline_waits) +
      deadline_waits_started r.2,
    deadline_aborted := w.deadline_aborted + (if aborts = true then w.deadline_waits else 0),
    trace := w.trace ++ r.2 }

/-- Runs the member function or completion handler of one event.  A deadline wake needs
a pending wait, an aborted one a queued cancelled wait. -/
def step (w : ClientRun) : ClientEvent → ClientRun
  | ClientEvent.Connect endpoints now => w.after now (w.client.Connect endpoints now)
  | ClientEvent.Disconnect now => w.after now w.client.Disconnect
  | ClientEvent.Send content now => w.after now (w.client.Send content)
  | ClientEvent.Poll now => w.after now w.client.Poll
  | ClientEvent.connect_completed error ep now =>
    w.after now (w.client.handle_connect error ep now)
  | ClientEvent.read_completed data error n now =>
    w.after now
      (({ w.client with recv_buffer_ := w.client.recv_buffer_ ++ data }).handle_read error n
        now)
  | ClientEvent.read_until_completed data error n now =>
    w.after now
      (({ w.client with input_buffer_ := w.client.input_buffer_ ++ data
        }).handle_read_until error n now)
  | ClientEvent.send_completed error now => w.after now (w.client.handle_send error)
  | ClientEvent.heartbeat_sent error now =>
    w.after now (w.client.handle_send_heartbeat error now)
  | ClientEvent.heartbeat_timer_wake now => w.after now w.client.send_heartbeat
  | ClientEvent.deadline_wake now =>
    if 0 < w.deadline_waits then
      ({ w with deadline_waits := w.deadline_waits - 1 }).after now
        (w.client.check_deadline 0 now)
    else w
  | ClientEvent.deadline_wake_aborted now =>
    if 0 < w.deadline_aborted then
      ({ w with deadline_aborted := w.deadline_aborted - 1 }).after now
        (w.client.check_deadline operation_aborted now)
    else w

/-- Runs a sequence of events, first to last. -/
def run (w : ClientRun) : List ClientEvent → ClientRun
  | [] => w
  | e :: rest => (w.step e).run rest

end ClientRun

/-- The session has no timeout configured and neither deadline is armed. -/
def TCP_Session.unarmed (s : TCP_Session) : Prop :=
  s.rw_timeout = 0 ∧ s.input_deadline_ = time_point_max ∧
    s.output_deadline_ = time_point_max

/-- The result `r` of a client member function run on `c` keeps the configured timeout,
leaves the deadline expiry alone when that timeout is 0, and notifies no receive
timeout. -/
def SPSocketClient.quiet (c : SPSocketClient) (r : SPSocketClient × List ClientAction) :
    Prop :=
  r.1.read_timeout = c.read_timeout ∧ (c.read_timeout = 0 → r.1.deadline_ = c.deadline_) ∧
    timeout_notifications r.2 = 0

/-- The invariant of a client run with timeout 0: the deadline expiry is either the
maximum, or still the epoch of the freshly constructed timer with no cancelled wait
queued; and no receive timeout was notified. -/
def ClientRun.unarmed (w : ClientRun) : Prop :=
  w.client.read_timeout = 0 ∧
    (w.client.deadline_ = time_point_max ∨ (w.client.deadline_ = 0 ∧ w.deadline_aborted = 0)) ∧
    timeout_notifications w.trace = 0

/-! ## Sample runs -/

/-- The value of `boost::asio::error::connection_reset` (ECONNRESET). -/
def connection_reset : error_code := 104

/-- The value of `boost::asio::error::broken_pipe` (EPIPE). -/
def broken_pipe : error_code := 32

/-- The session of peer `10.0.0.7:5000`, accepted and started at clock reading 0 with a
30 s read/write timeout, after the peer reset the connection. -/
def reset_run : SessionRun :=
  (SessionRun.accepted 7 Channel.empty "10.0.0.7".toList 5000 [] '\n' 30 0).run
    [SessionEvent.connection_lost]

/-- The same session after `Send` queued `a\n` and the output actor started its write,
and the peer then reset the connection while the write was in flight. -/
def unsent_run : SessionRun :=
  (SessionRun.accepted 7 Channel.empty "10.0.0.7".toList 5000 [] '\n' 30 0).run
    [SessionEvent.Send "a\n".toList, SessionEvent.output_wake 0 0,
      SessionEvent.connection_lost]

/-- The same session, still connected, after `Send` queued `a\n` at clock reading 0, the
output actor wrote it successfully and went back to sleep on the empty queue, and a
message `x` was read at 20 s, which re-armed the input deadline. -/
def idle_run : SessionRun :=
  (SessionRun.accepted 7 Channel.empty "10.0.0.7".toList 5000 [] '\n' 30 0).run
    [SessionEvent.Send "a\n".toList, SessionEvent.output_wake 0 0,
      SessionEvent.write_completed 0, SessionEvent.output_wake 0 0,
      SessionEvent.read_completed "x\n".toList 2 20000000000]

/-- A client with a 2 s read timeout on which `Connect` is called at clock reading 0 and
again at 1 s; the second call re-arms the deadline and so cancels the pending wait, whose
handler runs at 3 s, when the handlers queued meanwhile get to run. -/
def reconnect_run : ClientRun :=
  (ClientRun.fresh (SPSocketClient.configured none 2 none false)).run
    [ClientEvent.Connect [0] 0, ClientEvent.Connect [0] 1000000000,
      ClientEvent.deadline_wake_aborted 3000000000]

/-! ## Helper lemmas -/

theorem size_sub_one (n : Nat) (h1 : 1 ≤ n) : size_sub n 1 = n - 1 := by
  unfold size_sub
  rw [if_pos h1]

theorem substr_zero (s : Str) (len : Nat) : substr s 0 len = s.take len := by
  simp [substr]

theorem erase_zero (s : Str) (len : Nat) : erase s 0 len = s.drop len := by
  simp [erase]

theorem client_received_append (l1 l2 : List ClientAction) :
    client_received (l1 ++ l2) = client_received l1 ++ client_received l2 := by
  induction l1 with
  | nil => rfl
  | cons a l ih => cases a <;> simp [client_received, ih]

theorem client_received_start_read_until (c : SPSocketClient) (now : time_point) :
    client_received (c.start_read_until now).2 = [] := by
  unfold SPSocketClient.start_read_until
  split <;> simp [client_received]

theorem recv_queue_start_read_until (c : SPSocketClient) (now : time_point) :
    (c.start_read_until now).1.recv_queue_ = c.recv_queue_ := by
  unfold SPSocketClient.start_read_until
  split
  · rfl
  · dsimp only
    split <;> rfl

theorem input_buffer_start_read_until (c : SPSocketClient) (now : time_point) :
    (c.start_read_until now).1.input_buffer_ = c.input_buffer_ := by
  unfold SPSocketClient.start_read_until
  split
  · rfl
  · dsimp only
    split <;> rfl

theorem client_received_Disconnect (c : SPSocketClient) :
    client_received c.Disconnect.2 = [] := by
  unfold SPSocketClient.Disconnect
  split <;> simp [client_received]

theorem recv_queue_Disconnect (c : SPSocketClient) :
    c.Disconnect.1.recv_queue_ = c.recv_queue_ := by
  unfold SPSocketClient.Disconnect
  split <;> rfl


theorem server_received_append (l1 l2 : List ServerAction) :
    server_received (l1 ++ l2) = server_received l1 ++ server_received l2 := by
  induction l1 with
  | nil => rfl
  | cons a l ih => cases a <;> simp [server_received, ih]

theorem read_line_session (s : TCP_Session) (now : time_point) :
    (s.read_line now).session.input_buffer_ = s.input_buffer_ ∧
    (s.read_line now).session.output_queue_ = s.output_queue_ ∧
    (s.read_line now).session.socket_open = s.socket_open ∧
    server_received (s.read_line now).actions = [] := by
  unfold TCP_Session.read_line
  dsimp only
  split <;> simp [server_received]

theorem stop_session (s : TCP_Session) :
    s.stop.session.input_buffer_ = s.input_buffer_ ∧
    s.stop.session.output_queue_ = s.output_queue_ ∧
    server_received s.stop.actions = [] := by
  unfold TCP_Session.stop
  dsimp only
  split
  · split <;> simp [server_received]
  · simp [server_received]

/-- What the client's delimiter-mode read handler does on a successful completion. -/
theorem handle_read_until_success (c : SPSocketClient) (n : Nat) (now : time_point) :
    (c.handle_read_until 0 n now).1.input_buffer_ = c.input_buffer_.drop n ∧
    (c.use_recv_polling = true →
      (c.handle_read_until 0 n now).1.recv_queue_ =
        c.recv_queue_ ++ surfaced (c.input_buffer_.take (size_sub n 1)) ∧
      client_received (c.handle_read_until 0 n now).2 = []) ∧
    (c.use_recv_polling = false →
      (c.handle_read_until 0 n now).1.recv_queue_ = c.recv_queue_ ∧
      client_received (c.handle_read_until 0 n now).2 =
        surfaced (c.input_buffer_.take (size_sub n 1))) := by
  unfold SPSocketClient.handle_read_until
  rw [if_pos rfl]
  dsimp only
  rw [substr_zero, erase_zero, input_buffer_start_read_until, recv_queue_start_read_until,
    client_received_append, client_received_start_read_until, List.append_nil]
  unfold surfaced
  by_cases hm : List.take (size_sub n 1) c.input_buffer_ = []
  · rw [if_neg (not_not.mpr hm), if_pos hm]
    exact ⟨rfl, fun _ => ⟨(List.append_nil _).symm, rfl⟩, fun _ => ⟨rfl, rfl⟩⟩
  · rw [if_pos hm, if_neg hm]
    cases hp : c.use_recv_polling
    · rw [if_neg (by simp)]
      exact ⟨rfl, fun h => Bool.noConfusion h, fun _ => ⟨rfl, rfl⟩⟩
    · rw [if_pos rfl]
      exact ⟨rfl, fun _ => ⟨rfl, rfl⟩, fun h => Bool.noConfusion h⟩

/-- What the client's delimiter-mode read handler does on a failed completion. -/
theorem handle_read_until_failure (c : SPSocketClient) (error : error_code) (n : Nat)
    (now : time_point) (he : error ≠ 0) :
    (c.handle_read_until error n now).1.recv_queue_ = c.recv_queue_ ∧
    client_received (c.handle_read_until error n now).2 = [] := by
  unfold SPSocketClient.handle_read_until
  simp only [he, if_false]
  exact ⟨recv_queue_Disconnect c, by simp [client_received, client_received_Disconnect]⟩

/-- What the session's read handler does on a successful completion while the socket is
open. -/
theorem read_line_handler_success (s : TCP_Session) (n : Nat) (now : time_point)
    (hopen : s.stopped = false) :
    (s.read_line_handler 0 n now).session.input_buffer_ = s.input_buffer_.drop n ∧
    server_received (s.read_line_handler 0 n now).actions =
      surfaced (s.input_buffer_.take (size_sub n 1)) := by
  unfold TCP_Session.read_line_handler
  simp only [hopen, if_true, substr_zero, erase_zero, Bool.false_eq_true, if_false]
  by_cases hm : List.take (size_sub n 1) s.input_buffer_ = []
  · simp only [hm, ne_eq, not_true_eq_false, if_false]
    split
    · simp [(read_line_session _ now).1, (read_line_session _ now).2.2.2, surfaced]
    · simp [(read_line_session _ now).1, (read_line_session _ now).2.2.2, surfaced]
  · simp only [hm, ne_eq, not_false_eq_true, if_true]
    simp [(read_line_session _ now).1, (read_line_session _ now).2.2.2, surfaced,
      server_received, hm]

/-- Every message the session's read handler hands to `OnReceive` is non-empty. -/
theorem read_line_handler_received (s : TCP_Session) (error : error_code) (n : Nat)
    (now : time_point) :
    ∀ msg ∈ server_received (s.read_line_handler error n now).actions, msg ≠ [] := by
  cases hst : s.stopped
  · by_cases he : error = 0
    · subst he
      rw [(read_line_handler_success s n now hst).2]
      unfold surfaced
      split
      · intro msg hmsg
        cases hmsg
      · intro msg hmsg
        rw [List.mem_singleton] at hmsg
        subst hmsg
        assumption
    · unfold TCP_Session.read_line_handler
      rw [if_neg (by rw [hst]; decide), if_neg he]
      dsimp only
      intro msg hmsg
      rw [server_received, (stop_session s).2.2] at hmsg
      · cases hmsg
      · intro m hm
        cases hm
  · unfold TCP_Session.read_line_handler
    rw [if_pos hst]
    intro msg hmsg
    cases hmsg

theorem take_append_getElem_drop (b : Str) (k : Nat) (t : Char) (ht : b[k]? = some t) :
    b = b.take k ++ t :: b.drop (k + 1) := by
  induction b generalizing k with
  | nil => simp at ht
  | cons a l ih =>
    cases k with
    | zero =>
      simp only [List.getElem?_cons_zero, Option.some.injEq] at ht
      subst ht
      simp
    | succ k =>
      simp only [List.getElem?_cons_succ] at ht
      simp only [List.take_succ_cons, List.drop_succ_cons, List.cons_append, List.cons.injEq,
        true_and]
      exact ih k ht

/-! ## Framing, heartbeats and the client operations -/

/-- C1 (as amended): delimiter framing step.  For every input buffer `b` and byte count `n`
with `1 <= n <= |b|` such that `b[n-1]` is the first occurrence of the terminator `t`, the
buffer splits as `b[0..n-1) ++ t ++ b[n..]`; the client's `handle_read_until`, and the
server's `read_line` handler on a session that is not stopped, frame the message
`b[0..n-1)` (surfaced unless it is empty) and leave the input buffer equal to `b[n..]`. -/
theorem C1_framing_step (b : Str) (n : Nat) (t : Char) (h1 : 1 ≤ n) (h2 : n ≤ b.length)
    (ht : b[n - 1]? = some t) (hfirst : t ∉ b.take (n - 1)) :
    (b = b.take (n - 1) ++ t :: b.drop n ∧ t ∉ b.take (n - 1) ∧
      (b.drop n).length = b.length - n) ∧
    (∀ (c : SPSocketClient) (now : time_point),
      c.input_buffer_ = b → c.read_terminator = t →
      (c.handle_read_until 0 n now).1.input_buffer_ = b.drop n ∧
      (c.use_recv_polling = false →
        client_received (c.handle_read_until 0 n now).2 = surfaced (b.take (n - 1))) ∧
      (c.use_recv_polling = true →
        (c.handle_read_until 0 n now).1.recv_queue_ =
          c.recv_queue_ ++ surfaced (b.take (n - 1)))) ∧
    (∀ (s : TCP_Session) (now : time_point),
      s.input_buffer_ = b → s.read_terminator = t → s.stopped = false →
      (s.read_line_handler 0 n now).session.input_buffer_ = b.drop n ∧
      server_received (s.read_line_handler 0 n now).actions = surfaced (b.take (n - 1))) := by
  have hn : n - 1 + 1 = n := Nat.sub_add_cancel h1
  refine ⟨⟨?_, hfirst, ?_⟩, ?_, ?_⟩
  · have h := take_append_getElem_drop b (n - 1) t ht
    rw [hn] at h
    exact h
  · have := h2
    exact List.length_drop n b
  · intro c now hb _
    have h := handle_read_until_success c n now
    rw [size_sub_one n h1, hb] at h
    exact ⟨h.1, fun hp => (h.2.2 hp).2, fun hp => (h.2.1 hp).1⟩
  · intro s now hb _ hopen
    have h := read_line_handler_success s n now hopen
    rw [size_sub_one n h1, hb] at h
    exact h

/-- Witness for C1: the buffer `hello\nwo` with `n = 6`. -/
theorem C1_framing_step_witness :
    (1 ≤ 6 ∧ 6 ≤ "hello\nwo".toList.length ∧ "hello\nwo".toList[6 - 1]? = some '\n' ∧
      '\n' ∉ "hello\nwo".toList.take (6 - 1)) ∧
    ((sample_client false 0 "hello\nwo".toList).handle_read_until 0 6 0).1.input_buffer_ =
      "wo".toList ∧
    client_received ((sample_client false 0 "hello\nwo".toList).handle_read_until 0 6 0).2 =
      ["hello".toList] ∧
    ((sample_session 0 "hello\nwo".toList true).read_line_handler 0 6 0).session.input_buffer_ =
      "wo".toList ∧
    server_received ((sample_session 0 "hello\nwo".toList true).read_line_handler 0 6 0).actions =
      ["hello".toList] := by
  have h := C1_framing_step "hello\nwo".toList 6 '\n' (by decide) (by decide) (by decide)
    (by decide)
  have hc := h.2.1 (sample_client false 0 "hello\nwo".toList) 0 rfl rfl
  have hs := h.2.2 (sample_session 0 "hello\nwo".toList true) 0 rfl rfl rfl
  exact ⟨by decide, hc.1, hc.2.1 rfl, hs.1, hs.2⟩

/-- Counterexample to C1 as stated: on a stopped server session whose buffer is `a\n`, a
successful read completion reporting `n = 2` frames nothing and leaves the buffer as it
was, not equal to `b[2..]`. -/
theorem C1_counterexample :
    (1 ≤ 2 ∧ 2 ≤ (sample_session 0 "a\n".toList false).input_buffer_.length ∧
      (sample_session 0 "a\n".toList false).input_buffer_[2 - 1]? =
        some (sample_session 0 "a\n".toList false).read_terminator ∧
      (sample_session 0 "a\n".toList false).read_terminator ∉
        (sample_session 0 "a\n".toList false).input_buffer_.take (2 - 1)) ∧
    ((sample_session 0 "a\n".toList false).read_line_handler 0 2 0).session.input_buffer_ =
      "a\n".toList ∧
    ((sample_session 0 "a\n".toList false).read_line_handler 0 2 0).session.input_buffer_ ≠
      (sample_session 0 "a\n".toList false).input_buffer_.drop 2 ∧
    server_received ((sample_session 0 "a\n".toList false).read_line_handler 0 2 0).actions =
      [] := by
  decide

/-- C2: in delimiter mode a heartbeat never reaches the application.  A successful read
with `n = 1` invokes no `OnReceive` and leaves the receive queue unchanged, on the client
(in both receive modes) and on the server; and whatever the state, completion code and
byte count, every message the delimiter-mode read handlers hand to `OnReceive` or push to
the receive queue is non-empty. -/
theorem C2_heartbeat_not_surfaced :
    (∀ (c : SPSocketClient) (now : time_point),
      client_received (c.handle_read_until 0 1 now).2 = [] ∧
      (c.handle_read_until 0 1 now).1.recv_queue_ = c.recv_queue_) ∧
    (∀ (s : TCP_Session) (now : time_point),
      server_received (s.read_line_handler 0 1 now).actions = []) ∧
    (∀ (c : SPSocketClient) (error : error_code) (n : Nat) (now : time_point),
      (∀ msg ∈ client_received (c.handle_read_until error n now).2, msg ≠ []) ∧
      ∃ pushed, (c.handle_read_until error n now).1.recv_queue_ = c.recv_queue_ ++ pushed ∧
        ∀ msg ∈ pushed, msg ≠ []) ∧
    (∀ (s : TCP_Session) (error : error_code) (n : Nat) (now : time_point),
      ∀ msg ∈ server_received (s.read_line_handler error n now).actions, msg ≠ []) := by
  have hsurf : ∀ (m : Str), ∀ msg ∈ surfaced m, msg ≠ [] := by
    intro m msg hmsg
    unfold surfaced at hmsg
    split at hmsg
    · cases hmsg
    · rw [List.mem_singleton] at hmsg
      subst hmsg
      assumption
  have hone : size_sub 1 1 = 0 := by decide
  refine ⟨?_, ?_, ?_, read_line_handler_received⟩
  · intro c now
    have h := handle_read_until_success c 1 now
    rw [hone] at h
    cases hp : c.use_recv_polling
    · have h2 := h.2.2 hp
      exact ⟨by rw [h2.2]; rfl, h2.1⟩
    · have h2 := h.2.1 hp
      exact ⟨h2.2, by rw [h2.1]; simp [surfaced]⟩
  · intro s now
    cases hst : s.stopped
    · have h := (read_line_handler_success s 1 now hst).2
      rw [hone] at h
      rw [h]
      rfl
    · unfold TCP_Session.read_line_handler
      rw [if_pos hst]
      rfl
  · intro c error n now
    by_cases he : error = 0
    · subst he
      have h := handle_read_until_success c n now
      cases hp : c.use_recv_polling
      · have h2 := h.2.2 hp
        rw [h2.2]
        exact ⟨hsurf _, [], by rw [h2.1]; simp, by simp⟩
      · have h2 := h.2.1 hp
        rw [h2.2]
        exact ⟨by simp, _, h2.1, hsurf _⟩
    · have h := handle_read_until_failure c error n now he
      rw [h.2]
      exact ⟨by simp, [], by rw [h.1]; simp, by simp⟩

/-- C5: client `Disconnect()` is idempotent.  For every client state, a second call in
succession leaves the state of the first call, performs no action at all (so invokes no
callback), and the two calls together invoke `OnDisconnected` at most once. -/
theorem C5_disconnect_idempotent (c : SPSocketClient) :
    c.Disconnect.1.Disconnect.1 = c.Disconnect.1 ∧
    c.Disconnect.1.Disconnect.2 = [] ∧
    (c.Disconnect.2 ++ c.Disconnect.1.Disconnect.2).count ClientAction.OnDisconnected ≤ 1 := by
  cases hr : c.running_ <;> simp [SPSocketClient.Disconnect, hr]

/-- C7 (code at the failing input): the client's read timeout is 2 s, the deadline expired
(`expiry = now`) and the wait completed without being cancelled (`error = 0`).
`check_deadline` invokes no `OnReceiveTimeOut` and does not close the socket; it only
resets the expiry to the maximum and waits again. -/
theorem C7_expired_deadline_not_signalled :
    ({ sample_client false 2 [] with deadline_ := 2000000000 } :
        SPSocketClient).check_deadline 0 2000000000 =
      ({ sample_client false 2 [] with deadline_ := time_point_max },
        [ClientAction.deadline_async_wait]) ∧
    (({ sample_client false 2 [] with deadline_ := 2000000000 } :
        SPSocketClient).check_deadline 0 2000000000).1.socket_open = true ∧
    (({ sample_client false 2 [] with deadline_ := 2000000000 } :
        SPSocketClient).check_deadline 0 2000000000).1.IsConnected = true := by
  decide

/-- C9: client `Send` is valid only while CONNECTED.  For every client state whose status
is not CONNECTED, `Send(bytes)` performs no action (no write, no callback) and leaves the
state unchanged; when the status is CONNECTED it starts exactly one write, of exactly the
given bytes, and changes no state (nothing is queued). -/
theorem C9_send_only_while_connected (c : SPSocketClient) (content : Str) :
    (c.status ≠ ConnectionStatus.S_CONNECTED → c.Send content = (c, [])) ∧
    (c.status = ConnectionStatus.S_CONNECTED →
      c.Send content = (c, [ClientAction.async_write_send content])) := by
  unfold SPSocketClient.Send SPSocketClient.send SPSocketClient.IsConnected
  constructor
  · intro h
    rw [if_pos (by simp [h])]
  · intro h
    rw [if_neg (by simp [h])]

/-- Witness for C9: a client still connecting, and a connected one, sending `hi`. -/
theorem C9_send_only_while_connected_witness :
    ({ sample_client false 0 [] with status := ConnectionStatus.S_CONNECTING } :
        SPSocketClient).Send "hi".toList =
      ({ sample_client false 0 [] with status := ConnectionStatus.S_CONNECTING }, []) ∧
    (sample_client false 0 []).Send "hi".toList =
      (sample_client false 0 [], [ClientAction.async_write_send "hi".toList]) :=
  ⟨(C9_send_only_while_connected
      { sample_client false 0 [] with status := ConnectionStatus.S_CONNECTING }
      "hi".toList).1 (by decide),
    (C9_send_only_while_connected (sample_client false 0 []) "hi".toList).2 rfl⟩

/-! ## Deadline watchers and polling -/

theorem poll_times_queue (k : Nat) (c : SPSocketClient) (hk : k = c.recv_queue_.length) :
    (c.poll_times k).2 = c.recv_queue_.map ClientAction.OnReceive ∧
    (c.poll_times k).1.recv_queue_ = [] := by
  induction k generalizing c with
  | zero =>
    have hq : c.recv_queue_ = [] := List.length_eq_zero.mp hk.symm
    simp [SPSocketClient.poll_times, hq]
  | succ k ih =>
    cases hq : c.recv_queue_ with
    | nil => rw [hq] at hk; cases hk
    | cons m rest =>
      have hp : c.Poll = ({ c with recv_queue_ := rest }, [ClientAction.OnReceive m]) := by
        simp [SPSocketClient.Poll, SPSocketClient.pop, hq]
      have hlen : k = ({ c with recv_queue_ := rest } : SPSocketClient).recv_queue_.length := by
        rw [hq] at hk
        simpa using hk
      have h := ih { c with recv_queue_ := rest } hlen
      simp only [SPSocketClient.poll_times, hp]
      exact ⟨by rw [h.1]; rfl, h.2⟩

/-- C8 (as amended): no false timeout.  Whenever a deadline watcher wakes while its expiry
is strictly later than the current time, whatever the completion code, it signals no
timeout, does not close the socket or stop the session and leaves the state (the expiry
included) unchanged; the client's watcher and the watcher of a server session that is
not stopped re-enter the wait and do nothing else, while the watcher of a stopped server
session ends without waiting again. -/
theorem C8_no_false_timeout (now : time_point) (error : error_code) :
    (∀ c : SPSocketClient, now < c.deadline_ →
      c.check_deadline error now = (c, [ClientAction.deadline_async_wait])) ∧
    (∀ (s : TCP_Session) (d : Deadline), now < s.expiry d →
      (s.stopped = false → s.check_deadline_handler d error now =
        { session := s, actions := [ServerAction.deadline_async_wait d], thrown := none }) ∧
      (s.stopped = true → s.check_deadline_handler d error now =
        { session := s, actions := [], thrown := none })) := by
  constructor
  · intro c h
    unfold SPSocketClient.check_deadline
    rw [if_neg (not_le.mpr h)]
    rfl
  · intro s d h
    unfold TCP_Session.check_deadline_handler
    constructor
    · intro hs
      rw [if_neg (by rw [hs]; decide), if_neg (not_le.mpr h)]
      rfl
    · intro hs
      rw [if_pos hs]

/-- Witness for C8: a connected client and an open session, both armed for 30 s at clock
reading 0 and woken at 5 s by a cancelled wait (code 125). -/
theorem C8_no_false_timeout_witness :
    ((5000000000 : time_point) <
        ({ sample_client false 30 [] with deadline_ := 30000000000 } :
          SPSocketClient).deadline_ ∧
      ({ sample_client false 30 [] with deadline_ := 30000000000 } :
          SPSocketClient).check_deadline 125 5000000000 =
        ({ sample_client false 30 [] with deadline_ := 30000000000 },
          [ClientAction.deadline_async_wait])) ∧
    ((5000000000 : time_point) <
        ({ sample_session 30 [] true with output_deadline_ := 30000000000 } :
          TCP_Session).expiry Deadline.output ∧
      ({ sample_session 30 [] true with output_deadline_ := 30000000000 } :
          TCP_Session).check_deadline_handler Deadline.output 125 5000000000 =
        { session := { sample_session 30 [] true with output_deadline_ := 30000000000 },
          actions := [ServerAction.deadline_async_wait Deadline.output], thrown := none }) :=
  ⟨⟨by decide, (C8_no_false_timeout 5000000000 125).1 _ (by decide)⟩,
    ⟨by decide, ((C8_no_false_timeout 5000000000 125).2 _ Deadline.output (by decide)).1
      (by decide)⟩⟩

/-- Counterexample to C8 as stated: the input deadline watcher of a stopped session wakes
(its wait was cancelled, code 125) while its expiry, the maximum time point, is strictly
later than the clock reading 0; it does not re-enter the wait. -/
theorem C8_counterexample :
    (0 : time_point) < (sample_session 30 [] false).expiry Deadline.input ∧
    ((sample_session 30 [] false).check_deadline_handler Deadline.input 125 0).actions = [] ∧
    ServerAction.deadline_async_wait Deadline.input ∉
      ((sample_session 30 [] false).check_deadline_handler Deadline.input 125 0).actions := by
  decide

/-- C10 (as amended): polling receive is FIFO and one-at-a-time.  In polling mode a
non-empty framed message is appended to the tail of the receive queue and not passed to
`OnReceive` by the read handler; `Poll()` on a non-empty queue removes the oldest message
and invokes `OnReceive` with it exactly once, leaving the rest in order; `Poll()` on an
empty queue does nothing; and as many polls as there are queued messages deliver them in
arrival order and empty the queue. -/
theorem C10_polling_fifo (c : SPSocketClient) :
    (∀ (n : Nat) (now : time_point), c.use_recv_polling = true → 1 ≤ n →
      c.input_buffer_.take (n - 1) ≠ [] →
      (c.handle_read_until 0 n now).1.recv_queue_ =
        c.recv_queue_ ++ [c.input_buffer_.take (n - 1)] ∧
      client_received (c.handle_read_until 0 n now).2 = []) ∧
    (∀ (m : Str) (rest : List Str), c.recv_queue_ = m :: rest →
      c.Poll = ({ c with recv_queue_ := rest }, [ClientAction.OnReceive m])) ∧
    (c.recv_queue_ = [] → c.Poll = (c, [])) ∧
    ((c.poll_times c.recv_queue_.length).2 = c.recv_queue_.map ClientAction.OnReceive ∧
      (c.poll_times c.recv_queue_.length).1.recv_queue_ = []) := by
  refine ⟨?_, ?_, ?_, poll_times_queue _ c rfl⟩
  · intro n now hp h1 hm
    have h := (handle_read_until_success c n now).2.1 hp
    rw [size_sub_one n h1] at h
    unfold surfaced at h
    rw [if_neg hm] at h
    exact h
  · intro m rest hq
    simp [SPSocketClient.Poll, SPSocketClient.pop, hq]
  · intro hq
    simp [SPSocketClient.Poll, SPSocketClient.pop, hq]

/-- Witness for C10: a polling client holding `hi\nyo\n` frames `hi`; a client with two
queued messages is polled. -/
theorem C10_polling_fifo_witness :
    ((sample_client true 0 "hi\nyo\n".toList).use_recv_polling = true ∧ 1 ≤ 3 ∧
      (sample_client true 0 "hi\nyo\n".toList).input_buffer_.take (3 - 1) ≠ [] ∧
      ((sample_client true 0 "hi\nyo\n".toList).handle_read_until 0 3 0).1.recv_queue_ =
        ["hi".toList]) ∧
    (({ sample_client true 0 [] with recv_queue_ := ["hi".toList, "yo".toList] } :
        SPSocketClient).Poll =
      ({ sample_client true 0 [] with recv_queue_ := ["yo".toList] },
        [ClientAction.OnReceive "hi".toList])) ∧
    ((sample_client true 0 []).recv_queue_ = [] ∧
      (sample_client true 0 []).Poll = (sample_client true 0 [], [])) :=
  ⟨⟨rfl, by decide, by decide,
      ((C10_polling_fifo (sample_client true 0 "hi\nyo\n".toList)).1 3 0 rfl (by decide)
        (by decide)).1⟩,
    (C10_polling_fifo { sample_client true 0 [] with
      recv_queue_ := ["hi".toList, "yo".toList] }).2.1 _ _ rfl,
    ⟨rfl, (C10_polling_fifo (sample_client true 0 [])).2.2.1 rfl⟩⟩

/-- Counterexample to C10 as stated: in polling mode the framed message of the buffer
`\n` with `n = 1`, the empty message, is not appended to the receive queue, so a poll
after it was framed delivers nothing. -/
theorem C10_counterexample :
    (sample_client true 0 "\n".toList).use_recv_polling = true ∧
    (sample_client true 0 "\n".toList).input_buffer_[1 - 1]? =
      some (sample_client true 0 "\n".toList).read_terminator ∧
    ((sample_client true 0 "\n".toList).handle_read_until 0 1 0).1.recv_queue_ = [] ∧
    ((sample_client true 0 "\n".toList).handle_read_until 0 1 0).1.recv_queue_ ≠
      (sample_client true 0 "\n".toList).recv_queue_ ++
        [(sample_client true 0 "\n".toList).input_buffer_.take (1 - 1)] ∧
    (((sample_client true 0 "\n".toList).handle_read_until 0 1 0).1.poll_times 1).2 = [] := by
  decide

/-! ## Channel membership -/

theorem mem_set_insert (x y : subscriber_ptr) (l : List subscriber_ptr) :
    y ∈ set_insert x l ↔ y = x ∨ y ∈ l := by
  unfold set_insert
  split
  · constructor
    · intro h
      exact Or.inr h
    · intro h
      rcases h with h | h
      · subst h
        assumption
      · exact h
  · exact List.mem_orderedInsert _

theorem nodup_set_insert (x : subscriber_ptr) (l : List subscriber_ptr) (h : l.Nodup) :
    (set_insert x l).Nodup := by
  unfold set_insert
  split
  · exact h
  · rename_i hx
    rw [(List.perm_orderedInsert (· ≤ ·) x l).nodup_iff]
    exact List.nodup_cons.mpr ⟨hx, h⟩

theorem mem_set_erase (x y : subscriber_ptr) (l : List subscriber_ptr) :
    y ∈ set_erase x l ↔ y ≠ x ∧ y ∈ l := by
  unfold set_erase
  rw [List.mem_filter]
  simp [and_comm]

theorem nodup_set_erase (x : subscriber_ptr) (l : List subscriber_ptr) (h : l.Nodup) :
    (set_erase x l).Nodup :=
  h.filter _

theorem set_erase_of_not_mem (x : subscriber_ptr) (l : List subscriber_ptr) (h : x ∉ l) :
    set_erase x l = l := by
  unfold set_erase
  rw [List.filter_eq_self]
  intro y hy
  have : y ≠ x := fun hxy => h (hxy ▸ hy)
  simpa using this

theorem not_mem_set_erase_self (x : subscriber_ptr) (l : List subscriber_ptr) :
    x ∉ set_erase x l := by
  rw [mem_set_erase]
  intro h
  exact h.1 rfl

theorem delivered_to_Deliver (s : subscriber_ptr) (ch : Channel) (m : Str) :
    delivered_to s (ch.Deliver m) = List.replicate (ch.subscribers_.count s) m := by
  unfold delivered_to Channel.Deliver
  induction ch.subscribers_ with
  | nil => rfl
  | cons a l ih =>
    by_cases h : a = s
    · subst h
      simp only [List.map_cons, List.filter_cons, decide_True, if_true, List.count_cons_self,
        List.replicate_succ, List.cons.injEq, true_and]
      exact ih
    · have h2 : (a == s) = false := by simpa using h
      simp only [List.map_cons, List.filter_cons, h, decide_False, Bool.false_eq_true,
        if_false, List.count_cons, h2, Nat.add_zero]
      exact ih

theorem count_of_nodup (s : subscriber_ptr) (l : List subscriber_ptr) (h : l.Nodup) :
    l.count s = if s ∈ l then 1 else 0 := by
  split
  · rename_i hm
    exact List.count_eq_one_of_mem h hm
  · rename_i hm
    exact List.count_eq_zero_of_not_mem hm

theorem nodup_apply (ch : Channel) (op : ChannelOp) (h : ch.subscribers_.Nodup) :
    (ch.apply op).subscribers_.Nodup := by
  cases op with
  | Join x => exact nodup_set_insert x _ h
  | Leave x => exact nodup_set_erase x _ h

/-- After a sequence of operations on a duplicate-free channel, a subscriber is listed
once when its most recent operation was `Join`, not at all when it was `Leave`, and as
often as before when no operation concerned it. -/
theorem run_count (s : subscriber_ptr) (ops : List ChannelOp) :
    ∀ ch : Channel, ch.subscribers_.Nodup →
      (ch.run ops).subscribers_.Nodup ∧
      (ch.run ops).subscribers_.count s =
        match most_recent_join s ops with
        | some true => 1
        | some false => 0
        | none => ch.subscribers_.count s := by
  induction ops with
  | nil =>
    intro ch h
    exact ⟨h, rfl⟩
  | cons op rest ih =>
    intro ch h
    have h2 := nodup_apply ch op h
    have hr := ih (ch.apply op) h2
    refine ⟨hr.1, ?_⟩
    show ((ch.apply op).run rest).subscribers_.count s = _
    rw [hr.2]
    rw [most_recent_join]
    cases hmr : most_recent_join s rest with
    | some b => cases b <;> rfl
    | none =>
      dsimp only
      rw [count_of_nodup s _ h2]
      cases op with
      | Join x =>
        have hiff : s ∈ (ch.apply (ChannelOp.Join x)).subscribers_ ↔
            s = x ∨ s ∈ ch.subscribers_ := mem_set_insert x s _
        by_cases hx : x = s
        · subst hx
          rw [ChannelOp.concerns, if_pos rfl, if_pos (hiff.mpr (Or.inl rfl))]
        · rw [ChannelOp.concerns, if_neg hx, count_of_nodup s _ h]
          have : s ∈ (ch.apply (ChannelOp.Join x)).subscribers_ ↔ s ∈ ch.subscribers_ := by
            rw [hiff]
            constructor
            · intro h3
              rcases h3 with h3 | h3
              · exact absurd h3.symm hx
              · exact h3
            · exact Or.inr
          simp only [this]
      | Leave x =>
        have hiff : s ∈ (ch.apply (ChannelOp.Leave x)).subscribers_ ↔
            s ≠ x ∧ s ∈ ch.subscribers_ := mem_set_erase x s _
        by_cases hx : x = s
        · subst hx
          rw [ChannelOp.concerns, if_pos rfl, if_neg (fun h3 => (hiff.mp h3).1 rfl)]
        · rw [ChannelOp.concerns, if_neg hx, count_of_nodup s _ h]
          have : s ∈ (ch.apply (ChannelOp.Leave x)).subscribers_ ↔ s ∈ ch.subscribers_ := by
            rw [hiff]
            constructor
            · exact fun h3 => h3.2
            · exact fun h3 => ⟨fun h4 => hx h4.symm, h3⟩
          simp only [this]

/-- C4: channel delivery reaches exactly the current members.  For every sequence of
`Join` and `Leave` operations on a (default-constructed) channel followed by `Deliver(m)`,
`deliver(m)` is invoked exactly once on each subscriber whose most recent operation was
`Join` and not at all on any other subscriber; in particular a second `Join` of the same
subscriber causes no second delivery, and a subscriber that left receives nothing. -/
theorem C4_channel_delivery (ops : List ChannelOp) (s : subscriber_ptr) (m : Str) :
    delivered_to s ((Channel.empty.run ops).Deliver m) =
      (if most_recent_join s ops = some true then [m] else []) ∧
    delivered_to s ((((Channel.empty.run ops).Join s).Join s).Deliver m) = [m] ∧
    delivered_to s (((Channel.empty.run ops).Leave s).Deliver m) = [] := by
  have h0 : Channel.empty.subscribers_.Nodup := List.nodup_nil
  have hrun := run_count s ops Channel.empty h0
  refine ⟨?_, ?_, ?_⟩
  · rw [delivered_to_Deliver, hrun.2]
    cases hmr : most_recent_join s ops with
    | none => rfl
    | some b => cases b <;> rfl
  · rw [delivered_to_Deliver]
    have hn : (((Channel.empty.run ops).Join s).Join s).subscribers_.Nodup :=
      nodup_set_insert s _ (nodup_set_insert s _ hrun.1)
    have hmem : s ∈ (((Channel.empty.run ops).Join s).Join s).subscribers_ :=
      (mem_set_insert s s _).mpr (Or.inl rfl)
    rw [count_of_nodup s _ hn, if_pos hmem]
    rfl
  · rw [delivered_to_Deliver]
    have hmem : s ∉ ((Channel.empty.run ops).Leave s).subscribers_ :=
      not_mem_set_erase_self s _
    rw [List.count_eq_zero_of_not_mem hmem]
    rfl

/-! ## Stopping a session -/

/-- On a stopped session every completion handler returns at its `stopped()` check. -/
theorem handlers_of_stopped (s : TCP_Session) (hst : s.stopped = true) (error : error_code)
    (n : Nat) (now : time_point) (d : Deadline) :
    s.read_line_handler error n now = { session := s, actions := [], thrown := none } ∧
    s.await_output_handler error now = { session := s, actions := [], thrown := none } ∧
    s.write_line_handler error = { session := s, actions := [], thrown := none } ∧
    s.check_deadline_handler d error now =
      { session := s, actions := [], thrown := none } := by
  refine ⟨?_, ?_, ?_, ?_⟩
  · unfold TCP_Session.read_line_handler
    rw [if_pos hst]
  · unfold TCP_Session.await_output_handler
    rw [if_pos hst]
  · unfold TCP_Session.write_line_handler
    rw [if_pos hst]
  · unfold TCP_Session.check_deadline_handler
    rw [if_pos hst]

/-- What `stop()` does on a session whose socket is open and still connected. -/
theorem stop_of_open (s : TCP_Session) (hopen : s.stopped = false)
    (hconn : s.peer_connected = true) :
    s.stop =
      { session := { s with channel_ := s.channel_.Leave s.self, socket_open := false },
        actions := [ServerAction.OnClientDisconnected s.remote_host s.remote_port,
          ServerAction.socket_close, ServerAction.deadline_cancel Deadline.input,
          ServerAction.non_empty_output_queue_cancel,
          ServerAction.deadline_cancel Deadline.output],
        thrown := none } := by
  have h : s.socket_open = true := by
    unfold TCP_Session.stopped at hopen
    cases hs : s.socket_open
    · rw [hs] at hopen
      cases hopen
    · rfl
  unfold TCP_Session.stop
  dsimp only
  rw [if_pos h, if_pos hconn]

/-- What `stop()` does on a session whose socket is open but no longer connected: it
throws from `remote_endpoint()` and leaves the socket open. -/
theorem stop_of_reset (s : TCP_Session) (hopen : s.stopped = false)
    (hconn : s.peer_connected = false) :
    s.stop =
      { session := { s with channel_ := s.channel_.Leave s.self }, actions := [],
        thrown := some not_connected } := by
  have h : s.socket_open = true := by
    unfold TCP_Session.stopped at hopen
    cases hs : s.socket_open
    · rw [hs] at hopen
      cases hopen
    · rfl
  unfold TCP_Session.stop
  dsimp only
  rw [if_pos h, if_neg (by rw [hconn]; decide)]

/-- What `stop()` does on a session whose socket is closed. -/
theorem stop_of_stopped (s : TCP_Session) (hst : s.stopped = true) :
    s.stop =
      { session := { s with channel_ := s.channel_.Leave s.self }, actions := [],
        thrown := some bad_descriptor } := by
  have h : s.socket_open = false := by
    unfold TCP_Session.stopped at hst
    cases hs : s.socket_open
    · rfl
    · rw [hs] at hst
      cases hst
  unfold TCP_Session.stop
  dsimp only
  rw [if_neg (by rw [h]; decide)]

/-- C6 (code at the failing input): a started session with a 30 s timeout whose peer
reset the connection.  The read completes with `connection_reset`; its handler reports
the error and calls `stop()`, which throws `system_error(not_connected)` from
`remote_endpoint()` after leaving the channel: no client-disconnected notification, the
socket stays open, the timers are not cancelled, `stopped()` stays false.  So the guards
of the other continuations do not hold them back: at 30 s the input deadline watcher
calls `stop()` a second time, which throws again.  The two calls produce no notification
at all, and neither is safe. -/
theorem C6_stop_throws_on_reset_peer :
    reset_run.session.stopped = false ∧
    (reset_run.session.read_line_handler connection_reset 0 1000000000).actions =
      [ServerAction.OnReceiveError connection_reset] ∧
    (reset_run.session.read_line_handler connection_reset 0 1000000000).thrown =
      some not_connected ∧
    (reset_run.session.read_line_handler connection_reset 0
      1000000000).session.stopped = false ∧
    ((reset_run.session.read_line_handler connection_reset 0
      1000000000).session.check_deadline_handler Deadline.input 0 30000000000).actions =
        [] ∧
    ((reset_run.session.read_line_handler connection_reset 0
      1000000000).session.check_deadline_handler Deadline.input 0 30000000000).thrown =
        some not_connected ∧
    ((reset_run.session.read_line_handler connection_reset 0
      1000000000).session.check_deadline_handler Deadline.input 0
        30000000000).session.stopped = false ∧
    reset_run.session.stop.thrown = some not_connected ∧
    reset_run.session.stop.session.stop.thrown = some not_connected ∧
    reset_run.session.stop.session.stop.session.stopped = false ∧
    disconnect_notifications
      (reset_run.session.stop.actions ++ reset_run.session.stop.session.stop.actions) =
        0 := by
  decide

/-! ## The output queue of a running session -/

theorem read_line_actions (s : TCP_Session) (now : time_point) :
    (s.read_line now).actions = [ServerAction.async_read_until s.read_terminator] := rfl

/-- A successful read completion only ever appends to the output queue, and only when
the queue is empty; it never changes whether the session is stopped. -/
theorem read_line_handler_queue (s : TCP_Session) (n : Nat) (now : time_point) :
    (∃ extra, (s.read_line_handler 0 n now).session.output_queue_ = s.output_queue_ ++ extra ∧
      (s.output_queue_ ≠ [] → extra = [])) ∧
    (s.read_line_handler 0 n now).session.stopped = s.stopped := by
  cases hst : s.stopped
  · unfold TCP_Session.read_line_handler
    rw [if_neg (by rw [hst]; decide), if_pos rfl]
    dsimp only
    split
    · refine ⟨⟨[], ?_, fun _ => rfl⟩, ?_⟩
      · rw [(read_line_session _ now).2.1, List.append_nil]
      · unfold TCP_Session.stopped at hst ⊢
        rw [(read_line_session _ now).2.2.1]
        exact hst
    · split
      · rename_i hq
        refine ⟨⟨[TCP_Session.heartbeat_reply
          { s with input_buffer_ := erase s.input_buffer_ 0 n }], ?_, ?_⟩, ?_⟩
        · rw [(read_line_session _ now).2.1]
        · intro hne
          exact absurd hq hne
        · unfold TCP_Session.stopped at hst ⊢
          rw [(read_line_session _ now).2.2.1]
          exact hst
      · refine ⟨⟨[], ?_, fun _ => rfl⟩, ?_⟩
        · rw [(read_line_session _ now).2.1, List.append_nil]
        · unfold TCP_Session.stopped at hst ⊢
          rw [(read_line_session _ now).2.2.1]
          exact hst
  · rw [(handlers_of_stopped s hst 0 n now Deadline.input).1]
    exact ⟨⟨[], (List.append_nil _).symm, fun _ => rfl⟩, hst⟩

theorem write_line_session (s : TCP_Session) (now : time_point) :
    (s.write_line now).session.output_queue_ = s.output_queue_ ∧
    (s.write_line now).session.socket_open = s.socket_open ∧
    (s.write_line now).actions =
      (match s.output_queue_ with
        | [] => []
        | front :: _ => [ServerAction.async_write front]) := by
  unfold TCP_Session.write_line
  dsimp only
  split <;> exact ⟨rfl, rfl, rfl⟩

/-- The wake of the output actor on a session that is not stopped: with an empty queue
it waits again, otherwise it starts the write of the head of the queue. -/
theorem await_output_handler_of_open (s : TCP_Session) (error : error_code)
    (now : time_point) (hopen : s.stopped = false) :
    (s.output_queue_ = [] →
      (s.await_output_handler error now).session.output_queue_ = [] ∧
      (s.await_output_handler error now).actions =
        [ServerAction.non_empty_output_queue_async_wait]) ∧
    (∀ m rest, s.output_queue_ = m :: rest →
      (s.await_output_handler error now).session.output_queue_ = m :: rest ∧
      (s.await_output_handler error now).session.stopped = false ∧
      (s.await_output_handler error now).actions = [ServerAction.async_write m]) := by
  unfold TCP_Session.await_output_handler
  rw [if_neg (by rw [hopen]; decide)]
  constructor
  · intro hq
    rw [if_pos hq]
    exact ⟨hq, rfl⟩
  · intro m rest hq
    rw [if_neg (by rw [hq]; exact List.cons_ne_nil _ _)]
    have h := write_line_session s now
    refine ⟨?_, ?_, ?_⟩
    · rw [h.1, hq]
    · unfold TCP_Session.stopped at hopen ⊢
      rw [h.2.1]
      exact hopen
    · rw [h.2.2, hq]

/-- The write completion on a session that is not stopped: success pops the head and
waits for output, failure stops the session and keeps the queue. -/
theorem write_line_handler_of_open (s : TCP_Session) (error : error_code)
    (hopen : s.stopped = false) :
    (error = 0 →
      (s.write_line_handler error).session.output_queue_ = s.output_queue_.tail ∧
      (s.write_line_handler error).session.stopped = false ∧
      (s.write_line_handler error).actions =
        [ServerAction.non_empty_output_queue_async_wait]) ∧
    (error ≠ 0 →
      (s.write_line_handler error).session.output_queue_ = s.output_queue_ ∧
      started_write (s.write_line_handler error).actions = none ∧
      started_output_wait (s.write_line_handler error).actions = false) := by
  unfold TCP_Session.write_line_handler
  rw [if_neg (by rw [hopen]; decide)]
  constructor
  · intro he
    rw [if_pos he]
    exact ⟨rfl, hopen, rfl⟩
  · intro he
    rw [if_neg he]
    cases hc : s.peer_connected
    · rw [stop_of_reset s hopen hc]
      exact ⟨rfl, rfl, rfl⟩
    · rw [stop_of_open s hopen hc]
      exact ⟨rfl, rfl, rfl⟩

theorem send_payloads_append (l1 l2 : List (Origin × Str)) :
    send_payloads (l1 ++ l2) = send_payloads l1 ++ send_payloads l2 := by
  induction l1 with
  | nil => rfl
  | cons a l ih =>
    obtain ⟨o, m⟩ := a
    cases o <;> simp [send_payloads, ih]

theorem send_payloads_heartbeat (l : List Str) :
    send_payloads (l.map (fun m => (Origin.heartbeat, m))) = [] := by
  induction l with
  | nil => rfl
  | cons a l ih => simp [send_payloads, ih]

theorem head?_append_of_head? (l l2 : List Str) (m : Str) (h : l.head? = some m) :
    (l ++ l2).head? = some m := by
  cases l with
  | nil => cases h
  | cons a t => exact h

theorem step_Send_consistent (w : SessionRun) (msg : Str) (h : w.Consistent) :
    (w.step (SessionEvent.Send msg)).Consistent := by
  obtain ⟨ha, hb⟩ := h
  constructor
  · show w.transmitted ++ (w.session.output_queue_ ++ [msg]) =
      (w.enqueued ++ [(Origin.send, msg)]).map Prod.snd
    rw [← List.append_assoc, ha, List.map_append]
    rfl
  · intro m hm
    obtain ⟨h1, h2, h3⟩ := hb m hm
    exact ⟨head?_append_of_head? _ _ m h1, h2, h3⟩

theorem step_read_consistent (w : SessionRun) (data : Str) (n : Nat) (now : time_point)
    (h : w.Consistent) : (w.step (SessionEvent.read_completed data n now)).Consistent := by
  obtain ⟨ha, hb⟩ := h
  obtain ⟨⟨extra, hq, hextra⟩, hst⟩ := read_line_handler_queue
    { w.session with input_buffer_ := w.session.input_buffer_ ++ data } n now
  have hq2 : (TCP_Session.read_line_handler
      { w.session with input_buffer_ := w.session.input_buffer_ ++ data } 0 n
      now).session.output_queue_ = w.session.output_queue_ ++ extra := hq
  constructor
  · show w.transmitted ++ (TCP_Session.read_line_handler
      { w.session with input_buffer_ := w.session.input_buffer_ ++ data } 0 n
      now).session.output_queue_ = (w.enqueued ++ ((TCP_Session.read_line_handler
      { w.session with input_buffer_ := w.session.input_buffer_ ++ data } 0 n
      now).session.output_queue_.drop w.session.output_queue_.length).map
        (fun m => (Origin.heartbeat, m))).map Prod.snd
    rw [hq2, List.drop_left, ← List.append_assoc, ha, List.map_append, List.map_map]
    congr 1
    induction extra with
    | nil => rfl
    | cons a t ih => simp
  · intro m hm
    obtain ⟨h1, h2, h3⟩ := hb m hm
    refine ⟨?_, h2, ?_⟩
    · show (TCP_Session.read_line_handler
        { w.session with input_buffer_ := w.session.input_buffer_ ++ data } 0 n
        now).session.output_queue_.head? = some m
      rw [hq2]
      exact head?_append_of_head? _ _ m h1
    · show (TCP_Session.read_line_handler
        { w.session with input_buffer_ := w.session.input_buffer_ ++ data } 0 n
        now).session.stopped = false
      rw [hst]
      exact h3

theorem step_wake_consistent (w : SessionRun) (error : error_code) (now : time_point)
    (h : w.Consistent) : (w.step (SessionEvent.output_wake error now)).Consistent := by
  obtain ⟨ha, hb⟩ := h
  cases hp : w.output_wait_pending
  · have : w.step (SessionEvent.output_wake error now) = w := by
      simp [SessionRun.step, hp]
    rw [this]
    exact ⟨ha, hb⟩
  · have hnone : w.write_pending = none := by
      cases hw : w.write_pending with
      | none => rfl
      | some m =>
        have := (hb m hw).2.1
        rw [hp] at this
        cases this
    cases hst : w.session.stopped
    · cases hq : w.session.output_queue_ with
      | nil =>
        obtain ⟨h1, h2⟩ := (await_output_handler_of_open w.session error now hst).1 hq
        constructor
        · simp only [SessionRun.step, hp, if_true, h1]
          rw [← ha, hq]
        · intro m hm
          simp only [SessionRun.step, hp, if_true, h2, started_write, hnone] at hm
          cases hm
      | cons m rest =>
        obtain ⟨h1, h2, h3⟩ :=
          (await_output_handler_of_open w.session error now hst).2 m rest hq
        constructor
        · simp only [SessionRun.step, hp, if_true, h1]
          rw [← ha, hq]
        · intro m2 hm
          simp only [SessionRun.step, hp, if_true, h3, started_write, Option.some.injEq] at hm
          subst hm
          simp [SessionRun.step, hp, h1, h2, h3, started_output_wait]
    · have hr := (handlers_of_stopped w.session hst error 0 now Deadline.input).2.1
      constructor
      · simp only [SessionRun.step, hp, if_true, hr]
        exact ha
      · intro m hm
        simp only [SessionRun.step, hp, if_true, hr, started_write, hnone] at hm
        cases hm

theorem step_write_consistent (w : SessionRun) (error : error_code) (h : w.Consistent) :
    (w.step (SessionEvent.write_completed error)).Consistent := by
  obtain ⟨ha, hb⟩ := h
  cases hw : w.write_pending with
  | none =>
    have : w.step (SessionEvent.write_completed error) = w := by
      simp [SessionRun.step, hw]
    rw [this]
    exact ⟨ha, hb⟩
  | some m =>
    obtain ⟨h1, _, h3⟩ := hb m hw
    by_cases he : error = 0
    · subst he
      obtain ⟨g1, _, g3⟩ := (write_line_handler_of_open w.session 0 h3).1 rfl
      constructor
      · simp only [SessionRun.step, hw, g1, if_true]
        rw [← ha]
        cases hq : w.session.output_queue_ with
        | nil => rw [hq] at h1; cases h1
        | cons a t =>
          rw [hq] at h1
          simp only [List.head?_cons, Option.some.injEq] at h1
          subst h1
          simp
      · intro m2 hm
        simp only [SessionRun.step, hw, g3, started_write] at hm
        cases hm
    · obtain ⟨g1, g2, _⟩ := (write_line_handler_of_open w.session error h3).2 he
      constructor
      · simp only [SessionRun.step, hw, g1, he, if_false]
        exact ha
      · intro m2 hm
        simp only [SessionRun.step, hw, g2] at hm
        cases hm

theorem step_consistent (w : SessionRun) (e : SessionEvent) (h : w.Consistent) :
    (w.step e).Consistent := by
  cases e with
  | Send msg => exact step_Send_consistent w msg h
  | read_completed data n now => exact step_read_consistent w data n now h
  | output_wake error now => exact step_wake_consistent w error now h
  | write_completed error => exact step_write_consistent w error h
  | connection_lost => exact h

theorem run_consistent (evs : List SessionEvent) :
    ∀ w : SessionRun, w.Consistent → (w.run evs).Consistent := by
  induction evs with
  | nil => exact fun w h => h
  | cons e rest ih => exact fun w h => ih (w.step e) (step_consistent w e h)

theorem step_send_payloads (w : SessionRun) (e : SessionEvent) :
    send_payloads (w.step e).enqueued = send_payloads w.enqueued ++ send_calls [e] := by
  cases e with
  | Send msg =>
    show send_payloads (w.enqueued ++ [(Origin.send, msg)]) = _
    rw [send_payloads_append]
    rfl
  | read_completed data n now =>
    show send_payloads (w.enqueued ++ List.map (fun m => (Origin.heartbeat, m)) _) = _
    rw [send_payloads_append, send_payloads_heartbeat]
    rfl
  | output_wake error now =>
    cases hp : w.output_wait_pending <;> simp [SessionRun.step, hp, send_calls]
  | write_completed error =>
    cases hw : w.write_pending <;> simp [SessionRun.step, hw, send_calls]
  | connection_lost =>
    show send_payloads w.enqueued = send_payloads w.enqueued ++ []
    rw [List.append_nil]

theorem send_calls_cons (e : SessionEvent) (rest : List SessionEvent) :
    send_calls (e :: rest) = send_calls [e] ++ send_calls rest := by
  cases e <;> rfl

theorem run_send_payloads (evs : List SessionEvent) :
    ∀ w : SessionRun,
      send_payloads (w.run evs).enqueued = send_payloads w.enqueued ++ send_calls evs := by
  induction evs with
  | nil =>
    intro w
    exact (List.append_nil _).symm
  | cons e rest ih =>
    intro w
    show send_payloads ((w.step e).run rest).enqueued = _
    rw [ih (w.step e), step_send_payloads, List.append_assoc, ← send_calls_cons]

theorem Start_of_open (s : TCP_Session) (now : time_point) (h : s.socket_open = true)
    (hconn : s.peer_connected = true) :
    (s.Start now).session.output_queue_ = s.output_queue_ ∧
    (s.Start now).actions =
      [ServerAction.OnClientConnected s.remote_host s.remote_port,
        ServerAction.async_read_until s.read_terminator,
        ServerAction.deadline_async_wait Deadline.input,
        ServerAction.non_empty_output_queue_async_wait,
        ServerAction.deadline_async_wait Deadline.output] := by
  unfold TCP_Session.Start
  dsimp only
  rw [if_pos h, if_pos hconn]
  dsimp only
  rw [(read_line_session _ now).2.1]
  exact ⟨rfl, rfl⟩

theorem accepted_consistent (self : subscriber_ptr) (ch : Channel) (host : Str) (port : Nat)
    (oob : Str) (terminator : Char) (timeout : Int) (now : time_point) :
    (SessionRun.accepted self ch host port oob terminator timeout now).Consistent ∧
    (SessionRun.accepted self ch host port oob terminator timeout now).enqueued = [] := by
  have h := Start_of_open (((TCP_Session.create self ch host port oob).UseReadUntil
    terminator).UseReadWriteTimeOut timeout) now rfl rfl
  refine ⟨⟨?_, ?_⟩, rfl⟩
  · show [] ++ (TCP_Session.Start _ now).session.output_queue_ = []
    rw [h.1]
    rfl
  · intro m hm
    exfalso
    have : (SessionRun.accepted self ch host port oob terminator timeout now).write_pending =
        none := by
      show started_write (TCP_Session.Start _ now).actions = none
      rw [h.2]
      rfl
    rw [this] at hm
    cases hm

theorem send_payloads_take_initial (l : List (Origin × Str)) (k : Nat) :
    send_payloads (l.take k) <+: send_payloads l := by
  have h : send_payloads l = send_payloads (l.take k) ++ send_payloads (l.drop k) := by
    rw [← send_payloads_append, List.take_append_drop]
  rw [h]
  exact List.prefix_append _ _

/-- C3: server output is FIFO.  For every session the acceptor creates and starts, and
every interleaving of `Send` calls, successful reads (heartbeats among them), wakes of the
output actor and write completions (successful or not): the messages whose write
completed successfully, followed by the current content of the output queue, are exactly
the messages queued so far (`Send` payloads and heartbeat replies) in queueing order; the
`Send` payloads among the queued messages are the payloads of the `Send` calls in call
order; so the transmitted messages are the first messages queued, and the `Send`
payloads among them are an initial segment of the `Send` calls, in the same order. -/
theorem C3_output_fifo (self : subscriber_ptr) (ch : Channel) (host : Str) (port : Nat)
    (oob : Str) (terminator : Char) (timeout : Int) (now : time_point)
    (evs : List SessionEvent) :
    ((SessionRun.accepted self ch host port oob terminator timeout now).run evs).transmitted ++
        ((SessionRun.accepted self ch host port oob terminator timeout now).run
          evs).session.output_queue_ =
      ((SessionRun.accepted self ch host port oob terminator timeout now).run
        evs).enqueued.map Prod.snd ∧
    send_payloads ((SessionRun.accepted self ch host port oob terminator timeout now).run
        evs).enqueued = send_calls evs ∧
    ((SessionRun.accepted self ch host port oob terminator timeout now).run evs).transmitted =
      (((SessionRun.accepted self ch host port oob terminator timeout now).run
        evs).enqueued.take
          ((SessionRun.accepted self ch host port oob terminator timeout now).run
            evs).transmitted.length).map Prod.snd ∧
    send_payloads
        (((SessionRun.accepted self ch host port oob terminator timeout now).run
          evs).enqueued.take
            ((SessionRun.accepted self ch host port oob terminator timeout now).run
              evs).transmitted.length) <+: send_calls evs := by
  obtain ⟨h0, he0⟩ := accepted_consistent self ch host port oob terminator timeout now
  have hc := run_consistent evs _ h0
  have hs := run_send_payloads evs
    (SessionRun.accepted self ch host port oob terminator timeout now)
  rw [he0] at hs
  have hs2 : send_payloads
      ((SessionRun.accepted self ch host port oob terminator timeout now).run evs).enqueued =
      send_calls evs := by
    rw [hs]
    rfl
  refine ⟨hc.1, hs2, ?_, ?_⟩
  · rw [List.map_take, ← hc.1, List.take_left]
  · rw [← hs2]
    exact send_payloads_take_initial _ _

/-- A run of the session model: two `Send` calls around a received heartbeat are
written one after the other, in call order. -/
theorem session_run_example :
    ((SessionRun.accepted 7 Channel.empty "10.0.0.7".toList 5000 [] '\n' 30 0).run
      [SessionEvent.Send "a\n".toList, SessionEvent.read_completed "\n".toList 1 1,
        SessionEvent.output_wake 0 2, SessionEvent.Send "b\n".toList,
        SessionEvent.write_completed 0, SessionEvent.output_wake 0 3,
        SessionEvent.write_completed 0]).transmitted = ["a\n".toList, "b\n".toList] := by
  decide

/-! ## Raw reads, the heartbeat reply, connecting and disconnecting -/

theorem start_read_session (c : SPSocketClient) (now : time_point) :
    (c.start_read now).1.recv_queue_ = c.recv_queue_ ∧
    client_received (c.start_read now).2 = [] := by
  unfold SPSocketClient.start_read
  split
  · exact ⟨rfl, rfl⟩
  · dsimp only
    split <;> exact ⟨rfl, rfl⟩

/-- What the client's raw-mode read handler surfaces on a successful completion. -/
theorem handle_read_success (c : SPSocketClient) (n : Nat) (now : time_point) :
    (n = 0 →
      (c.handle_read 0 n now).1.recv_queue_ = c.recv_queue_ ∧
      client_received (c.handle_read 0 n now).2 = []) ∧
    (0 < n → c.use_recv_polling = false →
      (c.handle_read 0 n now).1.recv_queue_ = c.recv_queue_ ∧
      client_received (c.handle_read 0 n now).2 = [c.recv_buffer_.take (size_sub n 1)]) ∧
    (0 < n → c.use_recv_polling = true →
      (c.handle_read 0 n now).1.recv_queue_ =
        c.recv_queue_ ++ [c.recv_buffer_.take (size_sub n 1)] ∧
      client_received (c.handle_read 0 n now).2 = []) := by
  unfold SPSocketClient.handle_read
  rw [if_pos rfl]
  dsimp only
  rw [(start_read_session _ now).1, client_received_append, (start_read_session _ now).2,
    List.append_nil, substr_zero]
  refine ⟨?_, ?_, ?_⟩
  · intro hn
    rw [if_neg (by omega)]
    exact ⟨rfl, rfl⟩
  · intro hn hp
    rw [if_pos hn, if_neg (by rw [hp]; decide)]
    exact ⟨rfl, rfl⟩
  · intro hn hp
    rw [if_pos hn, if_pos hp]
    exact ⟨rfl, rfl⟩

/-- C12 (as amended): raw-mode surfacing.  In the client's raw-read mode, for every
successful read of `n >= 2` bytes into the (previously emptied) receive buffer, the
message surfaced to the application (`OnReceive` in push mode, the receive queue in
polling mode) is the first `n - 1` of those bytes, the last byte being dropped, and it is
not empty; a read of zero bytes surfaces nothing. -/
theorem C12_raw_mode_surfacing (c : SPSocketClient) (n : Nat) (now : time_point) :
    (2 ≤ n → c.recv_buffer_.length = n →
      c.recv_buffer_.take (n - 1) ≠ [] ∧
      (c.recv_buffer_.take (n - 1)).length = n - 1 ∧
      (c.use_recv_polling = false →
        client_received (c.handle_read 0 n now).2 = [c.recv_buffer_.take (n - 1)] ∧
        (c.handle_read 0 n now).1.recv_queue_ = c.recv_queue_) ∧
      (c.use_recv_polling = true →
        (c.handle_read 0 n now).1.recv_queue_ =
          c.recv_queue_ ++ [c.recv_buffer_.take (n - 1)] ∧
        client_received (c.handle_read 0 n now).2 = [])) ∧
    (n = 0 →
      client_received (c.handle_read 0 n now).2 = [] ∧
      (c.handle_read 0 n now).1.recv_queue_ = c.recv_queue_) := by
  have h := handle_read_success c n now
  constructor
  · intro h2 hlen
    have hs : size_sub n 1 = n - 1 := size_sub_one n (by omega)
    rw [hs] at h
    have hl : (c.recv_buffer_.take (n - 1)).length = n - 1 := by
      rw [List.length_take, hlen]
      omega
    refine ⟨?_, hl, ?_, ?_⟩
    · intro hnil
      rw [hnil] at hl
      simp at hl
      omega
    · intro hp
      exact ⟨(h.2.1 (by omega) hp).2, (h.2.1 (by omega) hp).1⟩
    · intro hp
      exact h.2.2 (by omega) hp
  · intro h0
    exact ⟨(h.1 h0).2, (h.1 h0).1⟩

/-- Witness for C12: a raw-mode client that has read the three bytes `abc`. -/
theorem C12_raw_mode_surfacing_witness :
    (2 ≤ 3 ∧ (sample_raw_client false "abc".toList).recv_buffer_.length = 3) ∧
    client_received ((sample_raw_client false "abc".toList).handle_read 0 3 0).2 =
      ["ab".toList] :=
  ⟨⟨by decide, rfl⟩,
    (((C12_raw_mode_surfacing (sample_raw_client false "abc".toList) 3 0).1 (by decide)
      rfl).2.2.1 rfl).1⟩

/-- Counterexample to C12 as stated: after a successful raw-mode read of the three bytes
`abc`, the message handed to `OnReceive` is `ab`, not those three bytes. -/
theorem C12_counterexample :
    (sample_raw_client false "abc".toList).recv_buffer_.length = 3 ∧
    client_received ((sample_raw_client false "abc".toList).handle_read 0 3 0).2 =
      ["ab".toList] ∧
    client_received ((sample_raw_client false "abc".toList).handle_read 0 3 0).2 ≠
      ["abc".toList] := by
  decide

/-- C13 (code at the failing input): a session that is not stopped, with terminator byte 1
and an empty output queue, frames a heartbeat.  The output queue then holds the single
message `B`, not the three bytes `H`, `B`, terminator; the wake signal is fired. -/
theorem C13_heartbeat_reply_is_not_HB_terminator :
    (sample_session_terminator (Char.ofNat 1) [Char.ofNat 1]).stopped = false ∧
    (sample_session_terminator (Char.ofNat 1) [Char.ofNat 1]).output_queue_ = [] ∧
    ((sample_session_terminator (Char.ofNat 1) [Char.ofNat 1]).read_line_handler 0 1
      0).session.output_queue_ = [['B']] ∧
    ((sample_session_terminator (Char.ofNat 1) [Char.ofNat 1]).read_line_handler 0 1
      0).session.output_queue_ ≠ [['H', 'B', Char.ofNat 1]] ∧
    ((sample_session_terminator (Char.ofNat 1) [Char.ofNat 1]).read_line_handler 0 1
      0).session.non_empty_output_queue_ = time_point_min := by
  decide

theorem Disconnect_counts (c : SPSocketClient) :
    client_receive_errors c.Disconnect.2 = 0 ∧ client_reads_started c.Disconnect.2 = 0 := by
  unfold SPSocketClient.Disconnect
  split <;> exact ⟨rfl, rfl⟩

/-- C15: a read failure is reported once and is terminal.  For every read completion
carrying an error, the client's handler (raw mode and delimiter mode) does exactly this:
it invokes `OnReceiveError` with the error and then calls `Disconnect()`; so it reports
the error once, invokes no `OnReceive` and starts no further read.  The handler of a
server session that is not stopped likewise invokes `OnReceiveError` and then calls
`stop()`, and does nothing else: one report, no `OnReceive`, no further read; whatever
`stop()` does, including the exception it raises when the connection is gone, is the
rest of the handler's outcome. -/
theorem C15_read_failure_terminal (error : error_code) (n : Nat) (now : time_point)
    (he : error ≠ 0) :
    (∀ c : SPSocketClient,
      c.handle_read error n now =
        (c.Disconnect.1, ClientAction.OnReceiveError error :: c.Disconnect.2) ∧
      c.handle_read_until error n now =
        (c.Disconnect.1, ClientAction.OnReceiveError error :: c.Disconnect.2) ∧
      client_receive_errors (ClientAction.OnReceiveError error :: c.Disconnect.2) = 1 ∧
      client_received (ClientAction.OnReceiveError error :: c.Disconnect.2) = [] ∧
      client_reads_started (ClientAction.OnReceiveError error :: c.Disconnect.2) = 0) ∧
    (∀ s : TCP_Session, s.stopped = false →
      s.read_line_handler error n now =
        { session := s.stop.session,
          actions := ServerAction.OnReceiveError error :: s.stop.actions,
          thrown := s.stop.thrown } ∧
      server_receive_errors (s.read_line_handler error n now).actions = 1 ∧
      server_received (s.read_line_handler error n now).actions = [] ∧
      server_reads_started (s.read_line_handler error n now).actions = 0) := by
  constructor
  · intro c
    refine ⟨?_, ?_, ?_, ?_, ?_⟩
    · unfold SPSocketClient.handle_read
      rw [if_neg he]
    · unfold SPSocketClient.handle_read_until
      rw [if_neg he]
    · show client_receive_errors c.Disconnect.2 + 1 = 1
      rw [(Disconnect_counts c).1]
    · show client_received c.Disconnect.2 = []
      exact client_received_Disconnect c
    · show client_reads_started c.Disconnect.2 = 0
      exact (Disconnect_counts c).2
  · intro s hopen
    have h : s.read_line_handler error n now =
        { session := s.stop.session,
          actions := ServerAction.OnReceiveError error :: s.stop.actions,
          thrown := s.stop.thrown } := by
      unfold TCP_Session.read_line_handler
      rw [if_neg (by rw [hopen]; decide), if_neg he]
    rw [h]
    refine ⟨rfl, ?_, ?_, ?_⟩
    · cases hc : s.peer_connected
      · rw [stop_of_reset s hopen hc]
        rfl
      · rw [stop_of_open s hopen hc]
        rfl
    · cases hc : s.peer_connected
      · rw [stop_of_reset s hopen hc]
        rfl
      · rw [stop_of_open s hopen hc]
        rfl
    · cases hc : s.peer_connected
      · rw [stop_of_reset s hopen hc]
        rfl
      · rw [stop_of_open s hopen hc]
        rfl

/-- Witness for C15: an end-of-file error (code 2) on a connected client and on an open
session whose peer closed the connection in order, and a `connection_reset` on the
started session whose peer reset it. -/
theorem C15_read_failure_terminal_witness :
    (2 : error_code) ≠ 0 ∧
    (sample_client false 0 []).handle_read_until 2 0 0 =
      ((sample_client false 0 []).Disconnect.1,
        ClientAction.OnReceiveError 2 :: (sample_client false 0 []).Disconnect.2) ∧
    (sample_session 0 [] true).stopped = false ∧
    (sample_session 0 [] true).read_line_handler 2 0 0 =
      { session := (sample_session 0 [] true).stop.session,
        actions := ServerAction.OnReceiveError 2 :: (sample_session 0 [] true).stop.actions,
        thrown := (sample_session 0 [] true).stop.thrown } ∧
    server_receive_errors ((sample_session 0 [] true).read_line_handler 2 0 0).actions = 1 ∧
    reset_run.session.stopped = false ∧
    server_receive_errors
      (reset_run.session.read_line_handler connection_reset 0 0).actions = 1 :=
  ⟨by decide, ((C15_read_failure_terminal 2 0 0 (by decide)).1 (sample_client false 0 [])).2.1,
    rfl, ((C15_read_failure_terminal 2 0 0 (by decide)).2 (sample_session 0 [] true) rfl).1,
    ((C15_read_failure_terminal 2 0 0 (by decide)).2 (sample_session 0 [] true) rfl).2.1,
    rfl,
    ((C15_read_failure_terminal connection_reset 0 0 (by decide)).2 reset_run.session
      rfl).2.1⟩

/-- C16 (code at the failing input): a client with a 2 s read timeout on which `Connect`
is called at clock reading 0 and again at 1 s.  The second call re-arms the deadline to
3 s, which cancels the wait started by the first.  The handler of the cancelled wait runs
at 3 s: it finds the expiry reached and a non-zero completion code, notifies the receive
timeout and closes the socket while the client is CONNECTING.  The connect then completes
on the closed socket: `handle_connect` invokes `OnConnectTimedOut` but leaves the status
at `S_CONNECT_ERROR`, not `S_CONNECT_TIMED_OUT`, whatever completion code it is given. -/
theorem C16_connect_timeout_sets_connect_error :
    ((ClientRun.fresh (SPSocketClient.configured none 2 none false)).run
      [ClientEvent.Connect [0] 0, ClientEvent.Connect [0] 1000000000]).deadline_aborted =
        1 ∧
    ((ClientRun.fresh (SPSocketClient.configured none 2 none false)).run
      [ClientEvent.Connect [0] 0, ClientEvent.Connect [0] 1000000000]).client.deadline_ =
        3000000000 ∧
    reconnect_run.client.status = ConnectionStatus.S_CONNECTING ∧
    reconnect_run.client.socket_open = false ∧
    timeout_notifications reconnect_run.trace = 1 ∧
    (reconnect_run.step
      (ClientEvent.connect_completed operation_aborted 0 3000000000)).trace =
        reconnect_run.trace ++ [ClientAction.OnConnectTimedOut 0] ∧
    (reconnect_run.step
      (ClientEvent.connect_completed operation_aborted 0 3000000000)).client.status =
        ConnectionStatus.S_CONNECT_ERROR ∧
    (reconnect_run.step
      (ClientEvent.connect_completed operation_aborted 0 3000000000)).client.status ≠
        ConnectionStatus.S_CONNECT_TIMED_OUT ∧
    (∀ (error : error_code) (ep : endpoint_type) (now : time_point),
      (reconnect_run.client.handle_connect error ep now).2 =
        [ClientAction.OnConnectTimedOut ep] ∧
      (reconnect_run.client.handle_connect error ep now).1.status =
        ConnectionStatus.S_CONNECT_ERROR) := by
  refine ⟨by decide, by decide, by decide, by decide, by decide, by decide, by decide,
    by decide, ?_⟩
  intro error ep now
  have h : reconnect_run.client.socket_open = false := by decide
  unfold SPSocketClient.handle_connect
  rw [if_pos h]
  exact ⟨rfl, rfl⟩

/-- C17 (code at the failing input): a client on which `Connect` was just called is
CONNECTING with its socket open and a connect and a deadline wait pending.
`Disconnect()` does nothing: no socket close, no timer cancel, no `OnDisconnected`, and
the status stays `S_CONNECTING`. -/
theorem C17_disconnect_while_connecting_is_a_no_op :
    (SPSocketClient.create.Connect [0] 0).1.status = ConnectionStatus.S_CONNECTING ∧
    (SPSocketClient.create.Connect [0] 0).1.socket_open = true ∧
    (SPSocketClient.create.Connect [0] 0).2 =
      [ClientAction.OnConnecting 0, ClientAction.async_connect 0,
        ClientAction.deadline_async_wait] ∧
    (SPSocketClient.create.Connect [0] 0).1.Disconnect =
      ((SPSocketClient.create.Connect [0] 0).1, []) ∧
    (SPSocketClient.create.Connect [0] 0).1.Disconnect.1.status ≠
      ConnectionStatus.S_CLOSED := by
  decide

/-- C18: stopped sessions are inert.  For every server session whose socket is closed,
each actor continuation (read completion, output wake, write completion, wake of either
deadline watcher), for every error code, byte count and clock reading, performs no action
(no callback, no new asynchronous operation), leaves the whole session state unchanged
and throws nothing. -/
theorem C18_stopped_sessions_inert (s : TCP_Session) (hst : s.stopped = true)
    (error : error_code) (n : Nat) (now : time_point) (d : Deadline) :
    s.read_line_handler error n now = { session := s, actions := [], thrown := none } ∧
    s.await_output_handler error now = { session := s, actions := [], thrown := none } ∧
    s.write_line_handler error = { session := s, actions := [], thrown := none } ∧
    s.check_deadline_handler d error now =
      { session := s, actions := [], thrown := none } :=
  handlers_of_stopped s hst error n now d

/-- Witness for C18: the sample session after its socket was closed, holding `a\n`. -/
theorem C18_stopped_sessions_inert_witness :
    (sample_session 30 "a\n".toList false).stopped = true ∧
    (sample_session 30 "a\n".toList false).read_line_handler 0 2 0 =
      { session := sample_session 30 "a\n".toList false, actions := [], thrown := none } ∧
    (sample_session 30 "a\n".toList false).check_deadline_handler Deadline.input 0
        9223372036854775807 =
      { session := sample_session 30 "a\n".toList false, actions := [], thrown := none } :=
  ⟨rfl,
    (C18_stopped_sessions_inert (sample_session 30 "a\n".toList false) rfl 0 2 0
      Deadline.input).1,
    (C18_stopped_sessions_inert (sample_session 30 "a\n".toList false) rfl 0 2
      9223372036854775807 Deadline.input).2.2.2⟩

/-! ## Output queue discipline and the output deadline -/

theorem stop_queue (s : TCP_Session) : s.stop.session.output_queue_ = s.output_queue_ :=
  (stop_session s).2.1

/-- The read handler, whatever the completion code, only ever appends to the output
queue. -/
theorem read_line_handler_appends (s : TCP_Session) (error : error_code) (n : Nat)
    (now : time_point) :
    ∃ extra, (s.read_line_handler error n now).session.output_queue_ =
      s.output_queue_ ++ extra := by
  by_cases he : error = 0
  · subst he
    obtain ⟨⟨extra, h, _⟩, _⟩ := read_line_handler_queue s n now
    exact ⟨extra, h⟩
  · refine ⟨[], ?_⟩
    rw [List.append_nil]
    unfold TCP_Session.read_line_handler
    split
    · rfl
    · exact stop_queue s

theorem await_output_handler_queue (s : TCP_Session) (error : error_code)
    (now : time_point) :
    (s.await_output_handler error now).session.output_queue_ = s.output_queue_ := by
  unfold TCP_Session.await_output_handler
  split
  · rfl
  · split
    · rfl
    · exact (write_line_session s now).1

theorem check_deadline_handler_queue (s : TCP_Session) (d : Deadline) (error : error_code)
    (now : time_point) :
    (s.check_deadline_handler d error now).session.output_queue_ = s.output_queue_ := by
  unfold TCP_Session.check_deadline_handler
  split
  · rfl
  · split
    · exact stop_queue s
    · rfl

theorem Start_queue (s : TCP_Session) (now : time_point) :
    (s.Start now).session.output_queue_ = s.output_queue_ := by
  unfold TCP_Session.Start
  dsimp only
  split
  · split
    · dsimp only
      rw [(read_line_session _ now).2.1]
    · rfl
  · rfl

/-- The output queue is only ever shortened by a successful write completion, which
removes its head; a failed write completion leaves it unchanged and calls `stop()`, which
stops the session when the peer is still connected; `deliver`/`Send` and the read handler
only append at the tail, and every other session operation leaves the queue as it is. -/
theorem output_queue_discipline (s : TCP_Session) :
    (s.stopped = false → ∀ (m : Str) (rest : List Str), s.output_queue_ = m :: rest →
      (s.write_line_handler 0).session.output_queue_ = rest) ∧
    (s.stopped = false → ∀ error : error_code, error ≠ 0 →
      (s.write_line_handler error).session.output_queue_ = s.output_queue_ ∧
      (s.write_line_handler error).session.output_queue_.head? = s.output_queue_.head? ∧
      s.write_line_handler error = s.stop ∧
      (s.peer_connected = true → (s.write_line_handler error).session.stopped = true)) ∧
    ((∀ msg : Str, (s.deliver msg).output_queue_ = s.output_queue_ ++ [msg] ∧
        (s.Send msg).output_queue_ = s.output_queue_ ++ [msg]) ∧
      (∀ (error : error_code) (n : Nat) (now : time_point),
        ∃ extra, (s.read_line_handler error n now).session.output_queue_ =
          s.output_queue_ ++ extra) ∧
      (∀ (error : error_code) (now : time_point),
        (s.await_output_handler error now).session.output_queue_ = s.output_queue_) ∧
      (∀ (d : Deadline) (error : error_code) (now : time_point),
        (s.check_deadline_handler d error now).session.output_queue_ = s.output_queue_) ∧
      (∀ now : time_point,
        (s.Start now).session.output_queue_ = s.output_queue_ ∧
        (s.read_line now).session.output_queue_ = s.output_queue_ ∧
        (s.write_line now).session.output_queue_ = s.output_queue_) ∧
      s.stop.session.output_queue_ = s.output_queue_ ∧
      s.await_output.session.output_queue_ = s.output_queue_ ∧
      (∀ d : Deadline, (s.check_deadline d).session.output_queue_ = s.output_queue_)) := by
  refine ⟨?_, ?_, ⟨fun msg => ⟨rfl, rfl⟩, read_line_handler_appends s,
    await_output_handler_queue s, check_deadline_handler_queue s, ?_, stop_queue s, rfl,
    fun d => rfl⟩⟩
  · intro hopen m rest hq
    rw [((write_line_handler_of_open s 0 hopen).1 rfl).1, hq]
    rfl
  · intro hopen error he
    have hq := ((write_line_handler_of_open s error hopen).2 he).1
    have hstop : s.write_line_handler error = s.stop := by
      unfold TCP_Session.write_line_handler
      rw [if_neg (by rw [hopen]; decide), if_neg he]
    refine ⟨hq, by rw [hq], hstop, ?_⟩
    intro hc
    rw [hstop, stop_of_open s hopen hc]
    rfl
  · intro now
    exact ⟨Start_queue s now, (read_line_session s now).2.1, (write_line_session s now).1⟩

/-- C14 (code at the failing input): a started session with `a\n` queued and its write in
flight when the peer resets the connection.  The write completes with `broken_pipe`; the
handler leaves the output queue unchanged, with the failed message still at its head, and
calls `stop()`, which throws `system_error(not_connected)` from `remote_endpoint()`: no
notification, no `close`, and the session is not stopped. -/
theorem C14_failed_write_does_not_stop :
    unsent_run.session.stopped = false ∧
    unsent_run.write_pending = some "a\n".toList ∧
    unsent_run.session.output_queue_ = ["a\n".toList] ∧
    (unsent_run.session.write_line_handler broken_pipe).session.output_queue_ =
      ["a\n".toList] ∧
    (unsent_run.session.write_line_handler broken_pipe).actions = [] ∧
    (unsent_run.session.write_line_handler broken_pipe).thrown = some not_connected ∧
    (unsent_run.session.write_line_handler broken_pipe).session.stopped = false ∧
    (unsent_run.step (SessionEvent.write_completed broken_pipe)).session.stopped = false ∧
    (unsent_run.step (SessionEvent.write_completed broken_pipe)).session.output_queue_ =
      ["a\n".toList] := by
  decide

/-- C20 (code at the failing input): a session with a 30 s read/write timeout is started
at clock reading 0, `Send` queues `a\n`, the output actor wakes and starts the write,
which arms the output deadline for 30 s and completes successfully at once; the output
actor goes back to sleep on the empty queue.  A message read at 20 s re-arms the input
deadline to 50 s, so at 30 s the input deadline watcher only goes back to sleep.  The
output queue is empty and no write is pending, yet the output deadline is still the one
armed for the finished write: when the output deadline watcher wakes at 30 s it finds the
expiry reached and stops the session. -/
theorem C20_output_deadline_outlives_the_write :
    idle_run.transmitted = ["a\n".toList] ∧
    idle_run.session.output_queue_ = [] ∧
    idle_run.write_pending = none ∧
    idle_run.output_wait_pending = true ∧
    idle_run.session.stopped = false ∧
    idle_run.session.peer_connected = true ∧
    idle_run.session.input_deadline_ = 50000000000 ∧
    idle_run.session.output_deadline_ = 30000000000 ∧
    idle_run.session.check_deadline_handler Deadline.input 0 30000000000 =
      { session := idle_run.session,
        actions := [ServerAction.deadline_async_wait Deadline.input], thrown := none } ∧
    (idle_run.session.check_deadline_handler Deadline.output 0
      30000000000).session.stopped = true ∧
    (idle_run.session.check_deadline_handler Deadline.output 0 30000000000).thrown =
      none ∧
    disconnect_notifications
      (idle_run.session.check_deadline_handler Deadline.output 0 30000000000).actions =
        1 := by
  decide

/-! ## Framing round trip -/

theorem read_until_count_append (t : Char) (m rest : Str) (hm : t ∉ m) :
    read_until_count t (m ++ t :: rest) = some (m.length + 1) := by
  induction m with
  | nil => simp [read_until_count]
  | cons a l ih =>
    have ha : a ≠ t := fun h => hm (h ▸ List.mem_cons_self _ _)
    have hl : t ∉ l := fun h => hm (List.mem_cons_of_mem _ h)
    simp [read_until_count, ha, ih hl]

theorem take_drop_wire (t : Char) (m rest : Str) :
    (m ++ t :: rest).take m.length = m ∧ (m ++ t :: rest).drop (m.length + 1) = rest := by
  constructor
  · exact List.take_left _ _
  · rw [← List.drop_drop, List.drop_left]
    rfl

theorem start_read_until_connected (c : SPSocketClient) (now : time_point)
    (hc : c.status = ConnectionStatus.S_CONNECTED) :
    (c.start_read_until now).2 = [ClientAction.async_read_until c.read_terminator] ∧
    (c.start_read_until now).1.status = c.status ∧
    (c.start_read_until now).1.read_terminator = c.read_terminator ∧
    (c.start_read_until now).1.use_recv_polling = c.use_recv_polling := by
  unfold SPSocketClient.start_read_until SPSocketClient.IsConnected
  rw [if_neg (by simp [hc])]
  dsimp only
  split <;> exact ⟨rfl, rfl, rfl, rfl⟩

theorem size_sub_succ (k : Nat) : size_sub (k + 1) 1 = k := by
  unfold size_sub
  rw [if_pos (Nat.succ_le_succ (Nat.zero_le k))]
  rfl

theorem client_reads_started_append (l1 l2 : List ClientAction) :
    client_reads_started (l1 ++ l2) = client_reads_started l1 + client_reads_started l2 := by
  induction l1 with
  | nil => simp [client_reads_started]
  | cons a l ih =>
    cases a <;> simp [client_reads_started, ih]
    all_goals omega

/-- A successful delimiter-mode completion is the framing, which starts no read and keeps
status and configuration, followed by `start_read_until()`. -/
theorem handle_read_until_shape (c : SPSocketClient) (n : Nat) (now : time_point) :
    ∃ (c1 : SPSocketClient) (fx : List ClientAction),
      c1.status = c.status ∧ c1.read_terminator = c.read_terminator ∧
      c1.use_recv_polling = c.use_recv_polling ∧ client_reads_started fx = 0 ∧
      c.handle_read_until 0 n now =
        ((c1.start_read_until now).1, fx ++ (c1.start_read_until now).2) := by
  unfold SPSocketClient.handle_read_until
  rw [if_pos rfl]
  dsimp only
  split
  · split
    · exact ⟨SPSocketClient.push { c with input_buffer_ := erase c.input_buffer_ 0 n }
        (substr c.input_buffer_ 0 (size_sub n 1)), [], rfl, rfl, rfl, rfl, rfl⟩
    · exact ⟨{ c with input_buffer_ := erase c.input_buffer_ 0 n },
        [ClientAction.OnReceive (substr c.input_buffer_ 0 (size_sub n 1))],
        rfl, rfl, rfl, rfl, rfl⟩
  · exact ⟨{ c with input_buffer_ := erase c.input_buffer_ 0 n }, [], rfl, rfl, rfl, rfl,
      rfl⟩

/-- A successful delimiter-mode completion on a connected client keeps the client
connected, keeps its configuration and starts exactly one new read. -/
theorem handle_read_until_connected (c : SPSocketClient) (n : Nat) (now : time_point)
    (hc : c.status = ConnectionStatus.S_CONNECTED) :
    (c.handle_read_until 0 n now).1.status = ConnectionStatus.S_CONNECTED ∧
    (c.handle_read_until 0 n now).1.read_terminator = c.read_terminator ∧
    (c.handle_read_until 0 n now).1.use_recv_polling = c.use_recv_polling ∧
    client_reads_started (c.handle_read_until 0 n now).2 = 1 := by
  obtain ⟨c1, fx, h1, h2, h3, h4, heq⟩ := handle_read_until_shape c n now
  have h := start_read_until_connected c1 now (h1.trans hc)
  rw [heq]
  refine ⟨?_, ?_, ?_, ?_⟩
  · exact h.2.1.trans (h1.trans hc)
  · exact h.2.2.1.trans h2
  · exact h.2.2.2.trans h3
  · show client_reads_started (fx ++ (c1.start_read_until now).2) = 1
    rw [client_reads_started_append, h4, h.1]
    rfl

theorem read_line_restarts (x : TCP_Session) (now : time_point) :
    (x.read_line now).session.read_terminator = x.read_terminator ∧
    server_reads_started (x.read_line now).actions = 1 := by
  unfold TCP_Session.read_line
  dsimp only
  split <;> exact ⟨rfl, rfl⟩

/-- A successful completion on a session that is not stopped keeps the terminator and
starts exactly one new read. -/
theorem read_line_handler_restarts (s : TCP_Session) (n : Nat) (now : time_point)
    (hopen : s.stopped = false) :
    (s.read_line_handler 0 n now).session.read_terminator = s.read_terminator ∧
    server_reads_started (s.read_line_handler 0 n now).actions = 1 := by
  unfold TCP_Session.read_line_handler
  rw [if_neg (by rw [hopen]; decide), if_pos rfl]
  dsimp only
  split
  · exact ⟨(read_line_restarts { s with input_buffer_ := erase s.input_buffer_ 0 n } now).1,
      (read_line_restarts { s with input_buffer_ := erase s.input_buffer_ 0 n } now).2⟩
  · split
    · exact ⟨(read_line_restarts _ now).1, (read_line_restarts _ now).2⟩
    · exact ⟨(read_line_restarts _ now).1, (read_line_restarts _ now).2⟩

/-- The client's input actor on the stream of a list of terminator-free messages. -/
theorem read_until_loop_stream (clock : Nat → time_point) (t : Char) (msgs : List Str) :
    ∀ (fuel : Nat) (c : SPSocketClient), msgs.length < fuel →
      c.status = ConnectionStatus.S_CONNECTED → c.read_terminator = t →
      c.input_buffer_ = wire_stream t msgs → (∀ m ∈ msgs, t ∉ m) →
      (c.read_until_loop clock fuel).1.input_buffer_ = [] ∧
      (c.use_recv_polling = false →
        client_received (c.read_until_loop clock fuel).2 = nonempty_messages msgs ∧
        (c.read_until_loop clock fuel).1.recv_queue_ = c.recv_queue_) ∧
      (c.use_recv_polling = true →
        (c.read_until_loop clock fuel).1.recv_queue_ =
          c.recv_queue_ ++ nonempty_messages msgs ∧
        client_received (c.read_until_loop clock fuel).2 = []) := by
  induction msgs with
  | nil =>
    intro fuel c hf _ _ hb _
    cases fuel with
    | zero => cases hf
    | succ k =>
      have hcount : read_until_count c.read_terminator c.input_buffer_ = none := by
        rw [hb]
        rfl
      have hloop : c.read_until_loop clock (k + 1) = (c, []) := by
        rw [SPSocketClient.read_until_loop, hcount]
      rw [hloop]
      exact ⟨hb, fun _ => ⟨rfl, rfl⟩, fun _ => ⟨(List.append_nil _).symm, rfl⟩⟩
  | cons m rest ih =>
    intro fuel c hf hc ht hb hfree
    cases fuel with
    | zero => cases hf
    | succ k =>
      have hm : t ∉ m := hfree m (List.mem_cons_self _ _)
      have hcount : read_until_count c.read_terminator c.input_buffer_ =
          some (m.length + 1) := by
        rw [hb, ht]
        exact read_until_count_append t m _ hm
      have hs := handle_read_until_success c (m.length + 1) (clock k)
      have hk := handle_read_until_connected c (m.length + 1) (clock k) hc
      rw [size_sub_succ, hb, wire_stream, (take_drop_wire t m _).1,
        (take_drop_wire t m _).2] at hs
      have hrec := ih k (c.handle_read_until 0 (m.length + 1) (clock k)).1
        (Nat.lt_of_succ_lt_succ hf) hk.1 (hk.2.1.trans ht) hs.1
        (fun x hx => hfree x (List.mem_cons_of_mem _ hx))
      have hloop : c.read_until_loop clock (k + 1) =
          ((SPSocketClient.read_until_loop clock k
              (c.handle_read_until 0 (m.length + 1) (clock k)).1).1,
            (c.handle_read_until 0 (m.length + 1) (clock k)).2 ++
              (SPSocketClient.read_until_loop clock k
                (c.handle_read_until 0 (m.length + 1) (clock k)).1).2) := by
        rw [SPSocketClient.read_until_loop, hcount]
        dsimp only
        rw [if_pos (by rw [hk.2.2.2]; exact Nat.zero_lt_one)]
      rw [hloop]
      refine ⟨hrec.1, ?_, ?_⟩
      · intro hp
        have h1 := hs.2.2 hp
        have h2 := hrec.2.1 (hk.2.2.1.trans hp)
        rw [client_received_append, h1.2, h2.1, h2.2, h1.1]
        exact ⟨rfl, rfl⟩
      · intro hp
        have h1 := hs.2.1 hp
        have h2 := hrec.2.2 (hk.2.2.1.trans hp)
        rw [client_received_append, h1.2, h2.1, h2.2, h1.1, List.append_assoc]
        exact ⟨rfl, rfl⟩

/-- The session's input actor on the stream of a list of terminator-free messages. -/
theorem read_line_loop_stream (clock : Nat → time_point) (t : Char) (msgs : List Str) :
    ∀ (fuel : Nat) (s : TCP_Session), msgs.length < fuel →
      s.stopped = false → s.read_terminator = t →
      s.input_buffer_ = wire_stream t msgs → (∀ m ∈ msgs, t ∉ m) →
      (s.read_line_loop clock fuel).1.input_buffer_ = [] ∧
      server_received (s.read_line_loop clock fuel).2 = nonempty_messages msgs := by
  induction msgs with
  | nil =>
    intro fuel s hf _ _ hb _
    cases fuel with
    | zero => cases hf
    | succ k =>
      have hcount : read_until_count s.read_terminator s.input_buffer_ = none := by
        rw [hb]
        rfl
      have hloop : s.read_line_loop clock (k + 1) = (s, []) := by
        rw [TCP_Session.read_line_loop, hcount]
      rw [hloop]
      exact ⟨hb, rfl⟩
  | cons m rest ih =>
    intro fuel s hf hopen ht hb hfree
    cases fuel with
    | zero => cases hf
    | succ k =>
      have hm : t ∉ m := hfree m (List.mem_cons_self _ _)
      have hcount : read_until_count s.read_terminator s.input_buffer_ =
          some (m.length + 1) := by
        rw [hb, ht]
        exact read_until_count_append t m _ hm
      have hs := read_line_handler_success s (m.length + 1) (clock k) hopen
      have hk := read_line_handler_restarts s (m.length + 1) (clock k) hopen
      have hst := (read_line_handler_queue s (m.length + 1) (clock k)).2
      rw [size_sub_succ, hb, wire_stream, (take_drop_wire t m _).1,
        (take_drop_wire t m _).2] at hs
      have hrec := ih k (s.read_line_handler 0 (m.length + 1) (clock k)).session
        (Nat.lt_of_succ_lt_succ hf) (hst.trans hopen) (hk.1.trans ht) hs.1
        (fun x hx => hfree x (List.mem_cons_of_mem _ hx))
      have hloop : s.read_line_loop clock (k + 1) =
          ((TCP_Session.read_line_loop clock k
              (s.read_line_handler 0 (m.length + 1) (clock k)).session).1,
            (s.read_line_handler 0 (m.length + 1) (clock k)).actions ++
              (TCP_Session.read_line_loop clock k
                (s.read_line_handler 0 (m.length + 1) (clock k)).session).2) := by
        rw [TCP_Session.read_line_loop, hcount]
        dsimp only
        rw [if_pos (by rw [hk.2]; exact Nat.zero_lt_one)]
      rw [hloop]
      refine ⟨hrec.1, ?_⟩
      rw [server_received_append, hs.2, hrec.2]
      rfl

/-- C11 (as amended): framing round trip.  For every terminator byte `t` and every list
of messages none of which contains `t`, take the byte stream obtained by appending `t` to
each message and concatenating.  The input actor of a CONNECTED client configured with
`t`, and the input actor of a server session configured with `t` that is not stopped,
run on that stream with enough completions, surface exactly the non-empty messages of the
list, in order and unmodified (to `OnReceive`; to the tail of the receive queue for a
client in polling mode), and end with an empty input buffer. -/
theorem C11_framing_round_trip (clock : Nat → time_point) (t : Char) (msgs : List Str)
    (fuel : Nat) (hfree : ∀ m ∈ msgs, t ∉ m) (hfuel : msgs.length < fuel) :
    (∀ c : SPSocketClient, c.status = ConnectionStatus.S_CONNECTED → c.read_terminator = t →
      c.input_buffer_ = wire_stream t msgs →
      (c.read_until_loop clock fuel).1.input_buffer_ = [] ∧
      (c.use_recv_polling = false →
        client_received (c.read_until_loop clock fuel).2 = nonempty_messages msgs ∧
        (c.read_until_loop clock fuel).1.recv_queue_ = c.recv_queue_) ∧
      (c.use_recv_polling = true →
        (c.read_until_loop clock fuel).1.recv_queue_ =
          c.recv_queue_ ++ nonempty_messages msgs ∧
        client_received (c.read_until_loop clock fuel).2 = [])) ∧
    (∀ s : TCP_Session, s.stopped = false → s.read_terminator = t →
      s.input_buffer_ = wire_stream t msgs →
      (s.read_line_loop clock fuel).1.input_buffer_ = [] ∧
      server_received (s.read_line_loop clock fuel).2 = nonempty_messages msgs) :=
  ⟨fun c hc ht hb => read_until_loop_stream clock t msgs fuel c hfuel hc ht hb hfree,
    fun s hs ht hb => read_line_loop_stream clock t msgs fuel s hfuel hs ht hb hfree⟩

/-- Witness for C11: the stream `hello\n\nhi\n` with terminator `\n`, the messages
`hello`, the empty message and `hi`, on an open session and on a connected client. -/
theorem C11_framing_round_trip_witness :
    ((∀ m ∈ ["hello".toList, [], "hi".toList], '\n' ∉ m) ∧
      ["hello".toList, [], "hi".toList].length < 4 ∧
      wire_stream '\n' ["hello".toList, [], "hi".toList] = "hello\n\nhi\n".toList ∧
      nonempty_messages ["hello".toList, [], "hi".toList] = ["hello".toList, "hi".toList]) ∧
    ((sample_session 0 "hello\n\nhi\n".toList true).read_line_loop (fun _ => 0)
        4).1.input_buffer_ = [] ∧
    server_received ((sample_session 0 "hello\n\nhi\n".toList true).read_line_loop
      (fun _ => 0) 4).2 = nonempty_messages ["hello".toList, [], "hi".toList] ∧
    client_received ((sample_client false 0 "hello\n\nhi\n".toList).read_until_loop
      (fun _ => 0) 4).2 = nonempty_messages ["hello".toList, [], "hi".toList] :=
  ⟨by decide,
    ((C11_framing_round_trip (fun _ => 0) '\n' ["hello".toList, [], "hi".toList] 4
      (by decide) (by decide)).2 (sample_session 0 "hello\n\nhi\n".toList true) rfl rfl
        (by decide)).1,
    ((C11_framing_round_trip (fun _ => 0) '\n' ["hello".toList, [], "hi".toList] 4
      (by decide) (by decide)).2 (sample_session 0 "hello\n\nhi\n".toList true) rfl rfl
        (by decide)).2,
    (((C11_framing_round_trip (fun _ => 0) '\n' ["hello".toList, [], "hi".toList] 4
      (by decide) (by decide)).1 (sample_client false 0 "hello\n\nhi\n".toList) rfl rfl
        (by decide)).2.1 rfl).1⟩

/-- Counterexample to C11 as stated: on a stopped server session holding the stream
`hello\n`, the completion of the pending read surfaces nothing and leaves the stream in
the input buffer. -/
theorem C11_counterexample :
    (sample_session 0 "hello\n".toList false).read_terminator = '\n' ∧
    (sample_session 0 "hello\n".toList false).input_buffer_ =
      wire_stream '\n' ["hello".toList] ∧
    server_received ((sample_session 0 "hello\n".toList false).read_line_loop (fun _ => 0)
      7).2 = [] ∧
    server_received ((sample_session 0 "hello\n".toList false).read_line_loop (fun _ => 0)
      7).2 ≠ nonempty_messages ["hello".toList] ∧
    ((sample_session 0 "hello\n".toList false).read_line_loop (fun _ => 0)
      7).1.input_buffer_ = "hello\n".toList := by
  decide

/-! ## Timeout 0 -/

theorem read_line_unarmed (s : TCP_Session) (now : time_point) (h : s.unarmed) :
    (s.read_line now).session = s := by
  unfold TCP_Session.read_line
  dsimp only
  rw [if_neg (by rw [h.1]; decide)]

theorem write_line_unarmed (s : TCP_Session) (now : time_point) (h : s.unarmed) :
    (s.write_line now).session = s := by
  unfold TCP_Session.write_line
  dsimp only
  rw [if_neg (by rw [h.1]; decide)]

theorem stop_unarmed (s : TCP_Session) (h : s.unarmed) : s.stop.session.unarmed := by
  unfold TCP_Session.stop
  dsimp only
  split
  · split <;> exact h
  · exact h

theorem read_line_keeps_unarmed (s : TCP_Session) (now : time_point) (h : s.unarmed) :
    (s.read_line now).session.unarmed := by
  rw [read_line_unarmed s now h]
  exact h

theorem read_line_handler_unarmed (s : TCP_Session) (error : error_code) (n : Nat)
    (now : time_point) (h : s.unarmed) : (s.read_line_handler error n now).session.unarmed := by
  unfold TCP_Session.read_line_handler
  split
  · exact h
  · split
    · dsimp only
      split
      · exact read_line_keeps_unarmed _ now h
      · split
        · exact read_line_keeps_unarmed _ now h
        · exact read_line_keeps_unarmed _ now h
    · exact stop_unarmed s h

theorem await_output_handler_unarmed (s : TCP_Session) (error : error_code)
    (now : time_point) (h : s.unarmed) : (s.await_output_handler error now).session.unarmed := by
  unfold TCP_Session.await_output_handler
  split
  · exact h
  · split
    · exact h
    · rw [write_line_unarmed s now h]
      exact h

theorem write_line_handler_unarmed (s : TCP_Session) (error : error_code) (h : s.unarmed) :
    (s.write_line_handler error).session.unarmed := by
  unfold TCP_Session.write_line_handler
  split
  · exact h
  · split
    · exact h
    · exact stop_unarmed s h

theorem check_deadline_handler_unarmed (s : TCP_Session) (d : Deadline) (error : error_code)
    (now : time_point) (h : s.unarmed) :
    (s.check_deadline_handler d error now).session.unarmed := by
  unfold TCP_Session.check_deadline_handler
  split
  · exact h
  · split
    · exact stop_unarmed s h
    · exact h

theorem perform_unarmed (s : TCP_Session) (op : SessionOp) (h : s.unarmed) :
    (s.perform op).session.unarmed := by
  cases op with
  | Send msg => exact h
  | read_completed data error n now => exact read_line_handler_unarmed _ error n now h
  | output_wake error now => exact await_output_handler_unarmed s error now h
  | write_completed error => exact write_line_handler_unarmed s error h
  | deadline_wake d error now => exact check_deadline_handler_unarmed s d error now h
  | connection_lost => exact h

theorem perform_all_unarmed (ops : List SessionOp) :
    ∀ s : TCP_Session, s.unarmed → (s.perform_all ops).unarmed := by
  induction ops with
  | nil => exact fun s h => h
  | cons op rest ih => exact fun s h => ih _ (perform_unarmed s op h)

theorem Start_unarmed (s : TCP_Session) (now : time_point) (h : s.unarmed) :
    (s.Start now).session.unarmed := by
  unfold TCP_Session.Start
  dsimp only
  split
  · split
    · exact read_line_keeps_unarmed _ now h
    · exact h
  · exact h

/-- With no deadline armed, a deadline wake at a clock reading below the maximum changes
nothing and, unless the session is already stopped, only waits again. -/
theorem check_deadline_handler_of_unarmed (s : TCP_Session) (d : Deadline)
    (error : error_code) (now : time_point) (h : s.unarmed) (hnow : now < time_point_max) :
    (s.check_deadline_handler d error now).session = s ∧
    (s.check_deadline_handler d error now).thrown = none ∧
    (s.check_deadline_handler d error now).actions =
      (if s.stopped = true then [] else [ServerAction.deadline_async_wait d]) := by
  have hexp : s.expiry d = time_point_max := by
    cases d
    · exact h.2.1
    · exact h.2.2
  unfold TCP_Session.check_deadline_handler
  split
  · exact ⟨rfl, rfl, rfl⟩
  · rw [if_neg (by rw [hexp]; exact not_le.mpr hnow)]
    exact ⟨rfl, rfl, rfl⟩

theorem timeout_notifications_append (l1 l2 : List ClientAction) :
    timeout_notifications (l1 ++ l2) = timeout_notifications l1 + timeout_notifications l2 := by
  induction l1 with
  | nil => simp [timeout_notifications]
  | cons a l ih =>
    cases a <;> simp [timeout_notifications, ih]
    omega

theorem quiet_self (c : SPSocketClient) : c.quiet (c, []) :=
  ⟨rfl, fun _ => rfl, rfl⟩

/-- Two quiet steps in a row are quiet. -/
theorem quiet_then (c : SPSocketClient) (r1 r2 : SPSocketClient × List ClientAction)
    (h1 : c.quiet r1) (h2 : r1.1.quiet r2) : c.quiet (r2.1, r1.2 ++ r2.2) := by
  refine ⟨h2.1.trans h1.1, ?_, ?_⟩
  · intro h0
    exact (h2.2.1 (h1.1.trans h0)).trans (h1.2.1 h0)
  · show timeout_notifications (r1.2 ++ r2.2) = 0
    rw [timeout_notifications_append, h1.2.2, h2.2.2]

theorem quiet_cons (c : SPSocketClient) (r : SPSocketClient × List ClientAction)
    (a : ClientAction) (ha : timeout_notifications [a] = 0) (h : c.quiet r) :
    c.quiet (r.1, a :: r.2) := by
  refine ⟨h.1, h.2.1, ?_⟩
  show timeout_notifications ([a] ++ r.2) = 0
  rw [timeout_notifications_append, ha, h.2.2]

theorem quiet_Disconnect (c : SPSocketClient) : c.quiet c.Disconnect := by
  unfold SPSocketClient.Disconnect
  split
  · exact ⟨rfl, fun _ => rfl, rfl⟩
  · exact quiet_self c

theorem quiet_start_read_until (c : SPSocketClient) (now : time_point) :
    c.quiet (c.start_read_until now) := by
  unfold SPSocketClient.start_read_until
  split
  · exact quiet_self c
  · dsimp only
    split
    · rename_i h
      exact ⟨rfl, fun h0 => absurd h (by rw [h0]; decide), rfl⟩
    · exact ⟨rfl, fun _ => rfl, rfl⟩

theorem quiet_start_read (c : SPSocketClient) (now : time_point) :
    c.quiet (c.start_read now) := by
  unfold SPSocketClient.start_read
  split
  · exact quiet_self c
  · dsimp only
    split
    · rename_i h
      exact ⟨rfl, fun h0 => absurd h (by rw [h0]; decide), rfl⟩
    · exact ⟨rfl, fun _ => rfl, rfl⟩

theorem quiet_Poll (c : SPSocketClient) : c.quiet c.Poll := by
  unfold SPSocketClient.Poll SPSocketClient.pop
  split
  · exact quiet_self c
  · exact ⟨rfl, fun _ => rfl, rfl⟩

theorem quiet_Send (c : SPSocketClient) (content : Str) : c.quiet (c.Send content) := by
  unfold SPSocketClient.Send SPSocketClient.send
  split
  · exact quiet_self c
  · exact ⟨rfl, fun _ => rfl, rfl⟩

theorem quiet_send_heartbeat (c : SPSocketClient) : c.quiet c.send_heartbeat := by
  unfold SPSocketClient.send_heartbeat
  split
  · exact quiet_self c
  · exact ⟨rfl, fun _ => rfl, rfl⟩

theorem quiet_handle_send (c : SPSocketClient) (error : error_code) :
    c.quiet (c.handle_send error) := by
  unfold SPSocketClient.handle_send
  split
  · exact quiet_cons c c.Disconnect _ rfl (quiet_Disconnect c)
  · exact quiet_self c

theorem quiet_handle_send_heartbeat (c : SPSocketClient) (error : error_code)
    (now : time_point) : c.quiet (c.handle_send_heartbeat error now) := by
  unfold SPSocketClient.handle_send_heartbeat
  split
  · exact ⟨rfl, fun _ => rfl, rfl⟩
  · exact quiet_cons c c.Disconnect _ rfl (quiet_Disconnect c)

theorem quiet_handle_read_until (c : SPSocketClient) (error : error_code) (n : Nat)
    (now : time_point) : c.quiet (c.handle_read_until error n now) := by
  unfold SPSocketClient.handle_read_until
  split
  · dsimp only
    refine quiet_then c _ _ ?_ (quiet_start_read_until _ now)
    split
    · split
      · exact ⟨rfl, fun _ => rfl, rfl⟩
      · exact ⟨rfl, fun _ => rfl, rfl⟩
    · exact ⟨rfl, fun _ => rfl, rfl⟩
  · exact quiet_cons c c.Disconnect _ rfl (quiet_Disconnect c)

theorem quiet_handle_read (c : SPSocketClient) (error : error_code) (n : Nat)
    (now : time_point) : c.quiet (c.handle_read error n now) := by
  unfold SPSocketClient.handle_read
  split
  · dsimp only
    refine quiet_then c _ _ ?_ (quiet_start_read _ now)
    split
    · split
      · exact ⟨rfl, fun _ => rfl, rfl⟩
      · exact ⟨rfl, fun _ => rfl, rfl⟩
    · exact quiet_self c
  · exact quiet_cons c c.Disconnect _ rfl (quiet_Disconnect c)

theorem quiet_heartbeat_start (x : SPSocketClient) :
    x.quiet (if x.heartbeat_str_.length > 0 then x.send_heartbeat else (x, [])) := by
  split
  · exact quiet_send_heartbeat x
  · exact quiet_self x

theorem quiet_start_async_reading (c : SPSocketClient) (now : time_point) :
    c.quiet (c.start_async_reading now) := by
  unfold SPSocketClient.start_async_reading
  split
  · exact quiet_self c
  · split
    · dsimp only
      have h1 : c.quiet (if c.use_read_until = true then
          SPSocketClient.start_read_until { c with running_ := true } now
        else SPSocketClient.start_read { c with running_ := true } now) := by
        split
        · exact quiet_start_read_until { c with running_ := true } now
        · exact quiet_start_read { c with running_ := true } now
      exact quiet_then c _ _ h1 (quiet_heartbeat_start _)
    · exact quiet_self c

theorem quiet_start_connect (c : SPSocketClient) (i : Nat) (now : time_point) :
    c.quiet (c.start_connect i now) := by
  unfold SPSocketClient.start_connect
  split
  · dsimp only
    split
    · rename_i h
      exact ⟨rfl, fun h0 => absurd h (by rw [h0]; decide), rfl⟩
    · exact ⟨rfl, fun _ => rfl, rfl⟩
  · exact quiet_Disconnect c

theorem quiet_handle_connect (c : SPSocketClient) (error : error_code) (ep : endpoint_type)
    (now : time_point) : c.quiet (c.handle_connect error ep now) := by
  unfold SPSocketClient.handle_connect
  split
  · exact ⟨rfl, fun _ => rfl, rfl⟩
  · split
    · exact ⟨rfl, fun _ => rfl, rfl⟩
    · dsimp only
      exact quiet_cons c _ _ rfl
        (quiet_start_async_reading { c with status := ConnectionStatus.S_CONNECTED } now)

theorem quiet_Connect (c : SPSocketClient) (endpoints : List endpoint_type)
    (now : time_point) : c.quiet (c.Connect endpoints now) := by
  unfold SPSocketClient.Connect SPSocketClient.start
  dsimp only
  have h := quiet_start_connect
    { c with status := ConnectionStatus.S_CLOSED, endpoints_ := endpoints } 0 now
  have h2 := quiet_then c _ (_, [ClientAction.deadline_async_wait]) h (quiet_self _)
  exact h2

theorem after_unarmed (w : ClientRun) (now : time_point)
    (r : SPSocketClient × List ClientAction) (hJ : w.unarmed) (hnow : 0 ≤ now)
    (h1 : r.1.read_timeout = 0)
    (h2 : r.1.deadline_ = w.client.deadline_ ∨ r.1.deadline_ = time_point_max)
    (h3 : timeout_notifications r.2 = 0) : (w.after now r).unarmed := by
  obtain ⟨_, hd, ht⟩ := hJ
  refine ⟨h1, ?_, ?_⟩
  · rcases h2 with h2 | h2
    · rcases hd with hd | ⟨hd, ha⟩
      · exact Or.inl (h2.trans hd)
      · refine Or.inr ⟨h2.trans hd, ?_⟩
        have hno : decide (now < w.client.deadline_) = false := by
          rw [hd]
          exact decide_eq_false (not_lt.mpr hnow)
        show w.deadline_aborted + (if (decide (now < w.client.deadline_) &&
          (deadline_cancelled r.2 || (decide (w.client.read_timeout > 0) &&
            bounded_operation_started r.2))) = true then w.deadline_waits else 0) = 0
        rw [hno, Bool.false_and, if_neg (by decide), ha]
    · exact Or.inl h2
  · show timeout_notifications (w.trace ++ r.2) = 0
    rw [timeout_notifications_append, ht, h3]

theorem after_quiet (w : ClientRun) (now : time_point)
    (r : SPSocketClient × List ClientAction) (hJ : w.unarmed) (hnow : 0 ≤ now)
    (hq : w.client.quiet r) : (w.after now r).unarmed :=
  after_unarmed w now r hJ hnow (hq.1.trans hJ.1) (Or.inl (hq.2.1 hJ.1)) hq.2.2

theorem check_deadline_normal (c : SPSocketClient) (now : time_point) :
    (c.check_deadline 0 now).1.read_timeout = c.read_timeout ∧
    ((c.check_deadline 0 now).1.deadline_ = c.deadline_ ∨
      (c.check_deadline 0 now).1.deadline_ = time_point_max) ∧
    timeout_notifications (c.check_deadline 0 now).2 = 0 := by
  unfold SPSocketClient.check_deadline
  dsimp only
  split
  · rw [if_neg (by decide)]
    exact ⟨rfl, Or.inr rfl, rfl⟩
  · exact ⟨rfl, Or.inl rfl, rfl⟩

theorem check_deadline_of_max (c : SPSocketClient) (error : error_code) (now : time_point)
    (hd : c.deadline_ = time_point_max) (hnow : now < time_point_max) :
    c.check_deadline error now = (c, [ClientAction.deadline_async_wait]) := by
  unfold SPSocketClient.check_deadline
  rw [if_neg (by rw [hd]; exact not_le.mpr hnow)]
  rfl

theorem step_unarmed (w : ClientRun) (e : ClientEvent) (hJ : w.unarmed)
    (h0 : 0 ≤ e.clock) (hmax : e.clock < time_point_max) : (w.step e).unarmed := by
  cases e with
  | Connect endpoints now => exact after_quiet w now _ hJ h0 (quiet_Connect _ endpoints now)
  | Disconnect now => exact after_quiet w now _ hJ h0 (quiet_Disconnect _)
  | Send content now => exact after_quiet w now _ hJ h0 (quiet_Send _ content)
  | Poll now => exact after_quiet w now _ hJ h0 (quiet_Poll _)
  | connect_completed error ep now =>
    exact after_quiet w now _ hJ h0 (quiet_handle_connect _ error ep now)
  | read_completed data error n now =>
    have hq := quiet_handle_read
      { w.client with recv_buffer_ := w.client.recv_buffer_ ++ data } error n now
    exact after_unarmed w now _ hJ h0 (hq.1.trans hJ.1) (Or.inl (hq.2.1 hJ.1)) hq.2.2
  | read_until_completed data error n now =>
    have hq := quiet_handle_read_until
      { w.client with input_buffer_ := w.client.input_buffer_ ++ data } error n now
    exact after_unarmed w now _ hJ h0 (hq.1.trans hJ.1) (Or.inl (hq.2.1 hJ.1)) hq.2.2
  | send_completed error now => exact after_quiet w now _ hJ h0 (quiet_handle_send _ error)
  | heartbeat_sent error now =>
    exact after_quiet w now _ hJ h0 (quiet_handle_send_heartbeat _ error now)
  | heartbeat_timer_wake now => exact after_quiet w now _ hJ h0 (quiet_send_heartbeat _)
  | deadline_wake now =>
    rw [ClientRun.step]
    split
    · have h := check_deadline_normal w.client now
      exact after_unarmed { w with deadline_waits := w.deadline_waits - 1 } now _ hJ h0
        (h.1.trans hJ.1) h.2.1 h.2.2
    · exact hJ
  | deadline_wake_aborted now =>
    rw [ClientRun.step]
    split
    · rename_i hpos
      have hd : w.client.deadline_ = time_point_max := by
        rcases hJ.2.1 with hd | ⟨_, ha⟩
        · exact hd
        · rw [ha] at hpos
          cases hpos
      have hJ2 : ({ w with deadline_aborted := w.deadline_aborted - 1 } : ClientRun).unarmed :=
        ⟨hJ.1, Or.inl hd, hJ.2.2⟩
      rw [check_deadline_of_max w.client operation_aborted now hd hmax]
      exact after_unarmed { w with deadline_aborted := w.deadline_aborted - 1 } now _ hJ2 h0
        hJ.1 (Or.inl rfl) rfl
    · exact hJ

theorem run_unarmed (evs : List ClientEvent) :
    ∀ w : ClientRun, w.unarmed → (∀ e ∈ evs, 0 ≤ e.clock ∧ e.clock < time_point_max) →
      (w.run evs).unarmed := by
  induction evs with
  | nil => exact fun w h _ => h
  | cons e rest ih =>
    intro w h hc
    exact ih (w.step e)
      (step_unarmed w e h (hc e (List.mem_cons_self _ _)).1 (hc e (List.mem_cons_self _ _)).2)
      (fun x hx => hc x (List.mem_cons_of_mem _ hx))

theorem configured_unarmed (delimiter : Option Char) (heartbeat : Option (Int × Str))
    (polling : Bool) :
    (ClientRun.fresh (SPSocketClient.configured delimiter 0 heartbeat polling)).unarmed := by
  cases delimiter <;> cases heartbeat <;> exact ⟨rfl, Or.inr ⟨rfl, rfl⟩, rfl⟩

theorem accepted_unarmed (self : subscriber_ptr) (ch : Channel) (host : Str) (port : Nat)
    (oob : Str) (terminator : Char) (now : time_point) :
    (SessionRun.accepted self ch host port oob terminator 0 now).session.unarmed :=
  Start_unarmed _ now ⟨rfl, rfl, rfl⟩

/-- C19: timeout 0 means unbounded.  With the timeout configured as 0 no operation arms a
deadline.  On a server session both deadline expiries are at `time_point::max()` after
`Start` and stay there through every sequence of `Send` calls and completions, so a
deadline wake (at any clock reading below the maximum, with any completion code)
changes nothing and never stops the session.  On the client `Connect`, `start_connect`,
`start_read`, `start_read_until` and the connect and read handlers leave the deadline
expiry as it is, and in every run of a freshly configured client (clock readings from
the epoch up to below the maximum) no `OnReceiveTimeOut` is ever invoked. -/
theorem C19_timeout_zero_unbounded :
    (∀ (self : subscriber_ptr) (ch : Channel) (host : Str) (port : Nat) (oob : Str)
      (terminator : Char) (now : time_point) (ops : List SessionOp),
      ((SessionRun.accepted self ch host port oob terminator 0 now).session.perform_all
        ops).input_deadline_ = time_point_max ∧
      ((SessionRun.accepted self ch host port oob terminator 0 now).session.perform_all
        ops).output_deadline_ = time_point_max ∧
      ∀ (d : Deadline) (error : error_code) (wake : time_point), wake < time_point_max →
        (((SessionRun.accepted self ch host port oob terminator 0 now).session.perform_all
          ops).check_deadline_handler d error wake).session =
          (SessionRun.accepted self ch host port oob terminator 0 now).session.perform_all
            ops ∧
        disconnect_notifications
          (((SessionRun.accepted self ch host port oob terminator 0 now).session.perform_all
            ops).check_deadline_handler d error wake).actions = 0) ∧
    (∀ c : SPSocketClient, c.read_timeout = 0 →
      ∀ (i : Nat) (endpoints : List endpoint_type) (error : error_code) (ep : endpoint_type)
        (n : Nat) (now : time_point),
        (c.Connect endpoints now).1.deadline_ = c.deadline_ ∧
        (c.start_connect i now).1.deadline_ = c.deadline_ ∧
        (c.handle_connect error ep now).1.deadline_ = c.deadline_ ∧
        (c.start_read now).1.deadline_ = c.deadline_ ∧
        (c.start_read_until now).1.deadline_ = c.deadline_ ∧
        (c.handle_read error n now).1.deadline_ = c.deadline_ ∧
        (c.handle_read_until error n now).1.deadline_ = c.deadline_) ∧
    (∀ (delimiter : Option Char) (heartbeat : Option (Int × Str)) (polling : Bool)
      (evs : List ClientEvent),
      (∀ e ∈ evs, 0 ≤ e.clock ∧ e.clock < time_point_max) →
      timeout_notifications
        ((ClientRun.fresh (SPSocketClient.configured delimiter 0 heartbeat polling)).run
          evs).trace = 0) := by
  refine ⟨?_, ?_, ?_⟩
  · intro self ch host port oob terminator now ops
    have h := perform_all_unarmed ops _ (accepted_unarmed self ch host port oob terminator now)
    refine ⟨h.2.1, h.2.2, ?_⟩
    intro d error wake hw
    have hc := check_deadline_handler_of_unarmed _ d error wake h hw
    refine ⟨hc.1, ?_⟩
    rw [hc.2.2]
    split <;> rfl
  · intro c h0 i endpoints error ep n now
    exact ⟨(quiet_Connect c endpoints now).2.1 h0, (quiet_start_connect c i now).2.1 h0,
      (quiet_handle_connect c error ep now).2.1 h0, (quiet_start_read c now).2.1 h0,
      (quiet_start_read_until c now).2.1 h0, (quiet_handle_read c error n now).2.1 h0,
      (quiet_handle_read_until c error n now).2.1 h0⟩
  · intro delimiter heartbeat polling evs hc
    exact (run_unarmed evs _ (configured_unarmed delimiter heartbeat polling) hc).2.2

/-- Witness for C19: a delimiter-mode client with timeout 0 connects, its first deadline
wait completes, it is disconnected and the cancelled wait is handled; the sample session
with timeout 0 is woken by its input deadline timer. -/
theorem C19_timeout_zero_unbounded_witness :
    (∀ e ∈ [ClientEvent.Connect [0] 0, ClientEvent.connect_completed 0 0 1,
        ClientEvent.deadline_wake 2, ClientEvent.Disconnect 3,
        ClientEvent.deadline_wake_aborted 4], 0 ≤ e.clock ∧ e.clock < time_point_max) ∧
    timeout_notifications
      ((ClientRun.fresh (SPSocketClient.configured (some '\n') 0 none false)).run
        [ClientEvent.Connect [0] 0, ClientEvent.connect_completed 0 0 1,
          ClientEvent.deadline_wake 2, ClientEvent.Disconnect 3,
          ClientEvent.deadline_wake_aborted 4]).trace = 0 ∧
    ((5 : time_point) < time_point_max ∧
      disconnect_notifications
        (((SessionRun.accepted 7 Channel.empty [] 5000 [] '\n' 0 0).session.perform_all
          [SessionOp.Send "a\n".toList]).check_deadline_handler Deadline.input 125
            5).actions = 0) :=
  ⟨by decide,
    C19_timeout_zero_unbounded.2.2 (some '\n') none false _ (by decide),
    by decide,
    ((C19_timeout_zero_unbounded.1 7 Channel.empty [] 5000 [] '\n' 0
      [SessionOp.Send "a\n".toList]).2.2 Deadline.input 125 5 (by decide)).2⟩

/-- A run of the client model with a 2 s read timeout: the connect arms the deadline, the
read started after the connect moves it and so cancels the pending wait; when the handler
of the cancelled wait runs only after the new deadline has passed, it notifies the
receive timeout. -/
theorem client_run_example :
    timeout_notifications
      ((ClientRun.fresh (SPSocketClient.configured (some '\n') 2 none false)).run
        [ClientEvent.Connect [0] 0, ClientEvent.connect_completed 0 0 1,
          ClientEvent.deadline_wake_aborted 3000000000]).trace = 1 := by
  decide

end SPSocket
